import Mathlib

/-!
Verification of the soliscloud_api response-normalization engine
(`soliscloud_api/types.py`) and of the paged-endpoint parameter validation
(`soliscloud_api/client.py`), as a shallow embedding in Lean 4.

Strings are modelled as `List Char` (keys and unit strings are ASCII in the
vendor payloads, so ASCII case conversion matches Python's `str.lower`).
Python numbers are modelled as `PyNum` (an exact rational together with an
`isFloat` flag recording the int/float distinction that `_round_to_int`
manipulates).  Python exceptions are modelled with `Except`.
-/

/-- Character strings, modelled as lists of characters. -/
abbrev Str := List Char

/-- Convert a Lean string literal to the `Str` model. -/
def str (s : String) : Str := s.data

/-- ASCII uppercase test (code points 65–90), the `[A-Z]` character class
of Python `re`. -/
def isUpperA (c : Char) : Bool := 65 ≤ c.toNat && c.toNat ≤ 90

/-- ASCII lowercase test (code points 97–122), the `[a-z]` character class
of Python `re`. -/
def isLowerA (c : Char) : Bool := 97 ≤ c.toNat && c.toNat ≤ 122

/-- ASCII digit test (code points 48–57), the `[0-9]` character class of
Python `re`. -/
def isDigitA (c : Char) : Bool := 48 ≤ c.toNat && c.toNat ≤ 57

/-- ASCII alphabetic test. -/
def isAlphaA (c : Char) : Bool := isUpperA c || isLowerA c

/-- Lowercase one ASCII character (add 32 to an uppercase code point), the
model of Python `str.lower` on ASCII data. -/
def toLowerA (c : Char) : Char := if isUpperA c then Char.ofNat (c.toNat + 32) else c

/-- Uppercase one ASCII character. -/
def toUpperA (c : Char) : Char := if isLowerA c then Char.ofNat (c.toNat - 32) else c

/-- Lowercase an ASCII string. -/
def lowerStr (s : Str) : Str := s.map toLowerA

/-- `isPfx p s` is true when `p` is a prefix of `s`. -/
def isPfx : Str → Str → Bool
  | [], _ => true
  | _ :: _, [] => false
  | p :: ps, c :: cs => p == c && isPfx ps cs

/-- `hasInfix s pat` is true when `pat` occurs as a contiguous substring of
`s`; the model of `re.search` for a literal pattern. -/
def hasInfix : Str → Str → Bool
  | s, pat =>
    isPfx pat s ||
      (match s with
       | [] => false
       | _ :: t => hasInfix t pat)

/-- Case-insensitive substring test, the model of
`re.search(pat, s, re.IGNORECASE)` for a literal pattern. -/
def hasInfixCI (s pat : Str) : Bool := hasInfix (lowerStr s) (lowerStr pat)

/-- `endsW s suf` is true when `s` ends with `suf`; the model of Python
`str.endswith` and of anchored `pat$` regex searches. -/
def endsW (s suf : Str) : Bool := isPfx suf.reverse s.reverse

/-- Case-insensitive suffix test, the model of `re.search("pat$", s,
re.IGNORECASE)` for a literal `pat`. -/
def endsWCI (s suf : Str) : Bool := endsW (lowerStr s) (lowerStr suf)

/-- Drop the last `n` characters, the model of Python slicing `s[:-n]`. -/
def dropLastN (n : Nat) (s : Str) : Str := s.take (s.length - n)

/-- Keep the last `n` characters, the model of Python slicing `s[-n:]`. -/
def lastN (n : Nat) (s : Str) : Str := s.drop (s.length - n)

/-- The part of `s` strictly before the first occurrence of `pat`; returns
all of `s` when `pat` does not occur.  Models `re.split(pat, s)[0]` for a
literal pattern. -/
def takeBeforeSub : Str → Str → Str
  | s, pat =>
    if isPfx pat s then []
    else
      match s with
      | [] => []
      | c :: t => c :: takeBeforeSub t pat

/-- Numeric value of a list of ASCII digits, most significant first. -/
def digitsVal (l : List Char) : Nat :=
  l.foldl (fun a c => a * 10 + (c.toNat - 48)) 0

/-- All maximal runs of digits in a string, as numbers; the model of
`re.findall(r"\d+", s)` composed with `int`.  The first argument carries the
value of the digit run currently being read. -/
def digitRunsGo : Option Nat → Str → List Nat
  | acc, [] =>
    (match acc with
     | some n => [n]
     | none => [])
  | acc, c :: t =>
    if isDigitA c then
      digitRunsGo (some ((acc.getD 0) * 10 + (c.toNat - 48))) t
    else
      match acc with
      | some n => n :: digitRunsGo none t
      | none => digitRunsGo none t

/-- All maximal digit runs of a string, as numbers. -/
def digitRuns (s : Str) : List Nat := digitRunsGo none s

/-- Euclidean algorithm with explicit fuel, so that it reduces inside the
kernel; `fuel ≥ b` always suffices. -/
def gcdFuel : Nat → Nat → Nat → Nat
  | 0, a, _ => a
  | fuel + 1, a, b => if b = 0 then a else gcdFuel fuel b (a % b)

/-- Greatest common divisor (kernel-reducible). -/
def natGcd (a b : Nat) : Nat := gcdFuel (b + 1) a b

/-- Exact rational numbers in lowest terms with positive denominator,
kept kernel-reducible (the standard library's `Rat` arithmetic does not
reduce inside the kernel).  Python's binary floats are a subset; exact
rationals model the arithmetic of `types.py` without rounding noise. -/
structure Q where
  num : Int
  den : Nat
deriving DecidableEq, Repr

/-- Reduce a fraction with positive denominator to lowest terms. -/
def qNorm (n : Int) (d : Nat) : Q :=
  let g := natGcd n.natAbs d
  if g = 0 then ⟨n, d⟩ else ⟨n / (g : Int), d / g⟩

/-- Build a rational from a signed numerator and denominator. -/
def qMk (n d : Int) : Q :=
  if d = 0 then ⟨0, 1⟩
  else if d < 0 then qNorm (-n) (-d).toNat
  else qNorm n d.toNat

/-- Embed an integer. -/
def qOfInt (n : Int) : Q := ⟨n, 1⟩

/-- Embed a natural number. -/
def qOfNat (n : Nat) : Q := ⟨(n : Int), 1⟩

instance : OfNat Q n := ⟨qOfInt (n : Int)⟩

instance : Neg Q := ⟨fun q => ⟨-q.num, q.den⟩⟩

instance : Add Q :=
  ⟨fun a b => qMk (a.num * (b.den : Int) + b.num * (a.den : Int)) ((a.den : Int) * (b.den : Int))⟩

instance : Sub Q :=
  ⟨fun a b => qMk (a.num * (b.den : Int) - b.num * (a.den : Int)) ((a.den : Int) * (b.den : Int))⟩

instance : Mul Q := ⟨fun a b => qMk (a.num * b.num) ((a.den : Int) * (b.den : Int))⟩

instance : Div Q := ⟨fun a b => qMk (a.num * (b.den : Int)) ((a.den : Int) * b.num)⟩

instance : LT Q := ⟨fun a b => a.num * (b.den : Int) < b.num * (a.den : Int)⟩

instance (a b : Q) : Decidable (a < b) :=
  inferInstanceAs (Decidable (a.num * (b.den : Int) < b.num * (a.den : Int)))

instance : LE Q := ⟨fun a b => a.num * (b.den : Int) ≤ b.num * (a.den : Int)⟩

instance (a b : Q) : Decidable (a ≤ b) :=
  inferInstanceAs (Decidable (a.num * (b.den : Int) ≤ b.num * (a.den : Int)))

/-- A rational is a mathematical integer exactly when its reduced
denominator is one; the model of Python `x == int(x)`. -/
def qIsWhole (q : Q) : Bool := q.den = 1

/-- Numeric (value) equality of two rationals, as Python `==` on numbers. -/
def qValEq (a b : Q) : Prop := a.num * (b.den : Int) = b.num * (a.den : Int)

instance (a b : Q) : Decidable (qValEq a b) :=
  inferInstanceAs (Decidable (a.num * (b.den : Int) = b.num * (a.den : Int)))

/-- Truncation toward zero, the model of Python `int(float)`. -/
def qTrunc (q : Q) : Int := q.num / (q.den : Int)

/- JSON-like vendor payload values (the fragment exercised by the API:
strings, integers, floats, arrays, objects).  Defined as a mutual inductive
so that the record walker can recurse structurally. -/
mutual
inductive Json where
  | str (s : Str)
  | int (n : Int)
  | num (q : Q)
  | arr (l : JList)
  | obj (o : JObj)
inductive JList where
  | nil
  | cons (hd : Json) (tl : JList)
inductive JObj where
  | nil
  | cons (key : Str) (val : Json) (tl : JObj)
end

/-- First binding of a key in an object, the model of `input[key]` /
`key in input.keys()`. -/
def jLookup : JObj → Str → Option Json
  | .nil, _ => none
  | .cons k v t, key => if k = key then some v else jLookup t key

/-- Membership of a binding in an object. -/
def objMem (key : Str) (v : Json) : JObj → Prop
  | .nil => False
  | .cons k w t => (k = key ∧ w = v) ∨ objMem key v t

/-- Python exceptions raised by the normalization engine. -/
inductive PyErr where
  | unitError
  | valueError
  | typeError
  | attributeError
deriving DecidableEq, Repr

/-- A Python number: exact rational value plus the int/float distinction
(`float(x)` marks a number as float, `_round_to_int` demotes whole floats
back to int). -/
structure PyNum where
  val : Q
  isFloat : Bool
deriving DecidableEq, Repr

/-- Model of Python `int(x) == x` followed by `x = int(x)`: a float that is
mathematically whole becomes an int. -/
def roundToIntNum (n : PyNum) : PyNum :=
  if n.val.den = 1 then ⟨n.val, false⟩ else n

/-- Model of Python `float(value)` on a JSON scalar: ints and floats convert
directly, strings are parsed as (optionally signed) decimal numerals,
anything else raises. -/
def parseDecCore (l : Str) : Option Q :=
  let intPart := l.takeWhile isDigitA
  let rest := l.dropWhile isDigitA
  match rest with
  | [] => if intPart = [] then none else some (qOfNat (digitsVal intPart))
  | '.' :: frac =>
    if frac.all isDigitA ∧ (intPart ≠ [] ∨ frac ≠ []) then
      some (qOfNat (digitsVal intPart) + qMk (digitsVal frac) ((10 : Int) ^ frac.length))
    else none
  | _ => none

/-- Parse a decimal numeral with optional sign, the model of `float(str)`
for plain decimal input. -/
def parseDec (s : Str) : Option Q :=
  match s with
  | '-' :: t => (parseDecCore t).map (fun q => -q)
  | '+' :: t => parseDecCore t
  | _ => parseDecCore s

/-- Model of `float(value)`. -/
def pyFloat : Json → Except PyErr Q
  | .int n => .ok (qOfInt n)
  | .num q => .ok q
  | .str s =>
    (match parseDec s with
     | some q => .ok q
     | none => .error .valueError)
  | _ => .error .typeError

/-- Parse a decimal integer numeral with optional sign. -/
def parseInt (s : Str) : Option Int :=
  match s with
  | '-' :: t => if t ≠ [] ∧ t.all isDigitA then some (-(digitsVal t : Int)) else none
  | '+' :: t => if t ≠ [] ∧ t.all isDigitA then some (digitsVal t : Int) else none
  | _ => if s ≠ [] ∧ s.all isDigitA then some (digitsVal s : Int) else none

/-- Model of `int(value)`: ints pass through, floats truncate toward zero,
strings are parsed as integer numerals, anything else raises. -/
def pyInt : Json → Except PyErr Int
  | .int n => .ok n
  | .num q => .ok (qTrunc q)
  | .str s =>
    (match parseInt s with
     | some n => .ok n
     | none => .error .valueError)
  | _ => .error .typeError

/-- The backing store of a `DimensionedType` instance (`types.py`): the
`value`/`unit` entries plus the optionally-populated `original_value` /
`original_unit` entries (absent key ↔ `none`).  Units are arbitrary payload
values in Python, hence `Json`. -/
structure DimData where
  value : PyNum
  unit : Option Json
  original_value : Option PyNum
  original_unit : Option Json

/-- Equality of a payload value with a fixed string, the model of Python
`j == "s"` (false for non-strings). -/
def jsonEqStr (j : Json) (s : Str) : Bool :=
  match j with
  | .str t => t == s
  | _ => false

/-- Equality of an optional unit with a fixed string (`None` compares
unequal to every string). -/
def optUnitIs (u : Option Json) (s : Str) : Bool :=
  match u with
  | some j => jsonEqStr j s
  | none => false

/-- `DimensionedType.__init__` before `_normalize`: coerce the raw value with
`float(value)` and store the unit as given. -/
def dimInit (value : Json) (unit : Option Json) : Except PyErr DimData := do
  let q ← pyFloat value
  .ok ⟨⟨q, true⟩, unit, none, none⟩

/-- `DimensionedType._round_to_int`: collapse whole floats to ints, for the
value and (when populated) the original value. -/
def roundDim (d : DimData) : DimData :=
  ⟨roundToIntNum d.value, d.unit, d.original_value.map roundToIntNum, d.original_unit⟩

/-- `DimensionedType.original_value` property: populated original value, or
the current value as fallback. -/
def originalValueProp (d : DimData) : PyNum := d.original_value.getD d.value

/-- `DimensionedType.original_unit` property: populated original unit, or the
current unit as fallback. -/
def originalUnitProp (d : DimData) : Option Json :=
  match d.original_unit with
  | some u => some u
  | none => d.unit

/-- `GenericType`: `_normalize` only rounds. -/
def genericType (value : Json) (unit : Option Json) : Except PyErr DimData := do
  let d ← dimInit value unit
  .ok (roundDim d)

/-- `CurrencyType`: `_normalize` is a no-op (run twice by `__init__`). -/
def currencyType (value : Json) (unit : Option Json) : Except PyErr DimData :=
  dimInit value unit

/-- `SiType.PREFIXES`. -/
def siPfxs : List Str :=
  [str "T", str "G", str "M", str "k", [], str "m", str "µ"]

/-- `SiType.MULTIPLIERS`: prefix `i` maps to `10^(3*(4-i))`. -/
def siMultOf (p : Str) : Q :=
  if p = str "T" then qOfInt 1000000000000
  else if p = str "G" then qOfInt 1000000000
  else if p = str "M" then qOfInt 1000000
  else if p = str "k" then qOfInt 1000
  else if p = [] then qOfInt 1
  else if p = str "m" then qMk 1 1000
  else if p = str "µ" then qMk 1 1000000
  else qOfInt 0

/-- Static data of one `SiType` subclass: its `BASE_UNIT` and its
`DEFAULT_PREFIX` (the empty prefix except for `EnergyType`, which uses `k`). -/
structure SiCfg where
  baseUnit : Str
  defaultPfx : Str
deriving DecidableEq, Repr

/-- `DEFAULT_MULTIPLIER` of a subclass. -/
def SiCfg.defaultMult (c : SiCfg) : Q := siMultOf c.defaultPfx

/-- The subclass's `UNITS` tuple: every prefix glued to the base unit. -/
def SiCfg.unitsOf (c : SiCfg) : List Str := siPfxs.map (fun p => p ++ c.baseUnit)

/-- The subclass's default unit string (`DEFAULT_PREFIX + BASE_UNIT`). -/
def SiCfg.defaultUnit (c : SiCfg) : Str := c.defaultPfx ++ c.baseUnit

/-- Membership of a payload value in a list of unit strings, the model of
Python `unit in UNITS` (non-strings are never members). -/
def jsonInStrList (j : Json) (l : List Str) : Bool :=
  match j with
  | .str s => l.contains s
  | _ => false

/-- `SiType._normalize`: fill in the default unit, split off the magnitude
prefix (`unit[:-len(BASE_UNIT)]`), reject unknown prefixes, remember the
as-received value/unit in `original_value`/`original_unit`, rescale by
`MULTIPLIERS[prefix] / DEFAULT_MULTIPLIER`, round, and stamp the default
unit. -/
def siNormalize (cfg : SiCfg) (d : DimData) : Except PyErr DimData := do
  let d : DimData :=
    match d.unit with
    | none => ⟨d.value, some (.str cfg.defaultUnit), d.original_value, d.original_unit⟩
    | some _ => d
  let s : Str ←
    match d.unit with
    | some (.str s) => .ok s
    | _ => .error .typeError
  let pfx := s.take (s.length - cfg.baseUnit.length)
  if siPfxs.contains pfx then
    let d : DimData := ⟨d.value, d.unit, some d.value, d.unit⟩
    let d : DimData :=
      ⟨⟨d.value.val * (siMultOf pfx / cfg.defaultMult), true⟩, d.unit,
        d.original_value, d.original_unit⟩
    let d := roundDim d
    .ok ⟨d.value, some (.str cfg.defaultUnit), d.original_value, d.original_unit⟩
  else
    .error .unitError

/-- `SiType.__init__`: validate a supplied unit against `UNITS`, then the
base-class `__init__` (which runs `_normalize` once). -/
def siInit (cfg : SiCfg) (value : Json) (unit : Option Json) : Except PyErr DimData := do
  (match unit with
   | some j => if jsonInStrList j cfg.unitsOf then .ok () else .error .unitError
   | none => .ok ())
  let d ← dimInit value unit
  siNormalize cfg d

/-- `EnergyType` static data: base `Wh`, default prefix `k`. -/
def energyCfg : SiCfg := ⟨str "Wh", str "k"⟩

/-- `VoltageType` static data. -/
def voltageCfg : SiCfg := ⟨str "V", []⟩

/-- `CurrentType` static data. -/
def currentCfg : SiCfg := ⟨str "A", []⟩

/-- `PowerType` static data. -/
def powerCfg : SiCfg := ⟨str "W", []⟩

/-- `ReactivePowerType` static data. -/
def reactivePowerCfg : SiCfg := ⟨str "var", []⟩

/-- `ApparentPowerType` static data. -/
def apparentPowerCfg : SiCfg := ⟨str "VA", []⟩

/-- `FrequencyType` static data. -/
def frequencyCfg : SiCfg := ⟨str "Hz", []⟩

/-- `EnergyType.__init__`: only the inherited constructor (one
normalization pass). -/
def energyType (value : Json) (unit : Option Json) : Except PyErr DimData :=
  siInit energyCfg value unit

/-- `VoltageType.__init__`: one normalization pass. -/
def voltageType (value : Json) (unit : Option Json) : Except PyErr DimData :=
  siInit voltageCfg value unit

/-- `CurrentType.__init__`: one normalization pass. -/
def currentType (value : Json) (unit : Option Json) : Except PyErr DimData :=
  siInit currentCfg value unit

/-- `PowerType.__init__`: the inherited constructor followed by a second
explicit `self._normalize()` call. -/
def powerType (value : Json) (unit : Option Json) : Except PyErr DimData := do
  let d ← siInit powerCfg value unit
  siNormalize powerCfg d

/-- `ReactivePowerType.__init__`: inherited constructor plus a second
`_normalize` call. -/
def reactivePowerType (value : Json) (unit : Option Json) : Except PyErr DimData := do
  let d ← siInit reactivePowerCfg value unit
  siNormalize reactivePowerCfg d

/-- `ApparentPowerType.__init__`: inherited constructor plus a second
`_normalize` call. -/
def apparentPowerType (value : Json) (unit : Option Json) : Except PyErr DimData := do
  let d ← siInit apparentPowerCfg value unit
  siNormalize apparentPowerCfg d

/-- `FrequencyType.__init__`: inherited constructor plus a second
`_normalize` call. -/
def frequencyType (value : Json) (unit : Option Json) : Except PyErr DimData := do
  let d ← siInit frequencyCfg value unit
  siNormalize frequencyCfg d

/-- `TemperatureType.UNITS`. -/
def tempUnits : List Str := [str "℃", str "F", str "K"]

/-- `TemperatureType.KELVIN`. -/
def kelvinConst : Q := qMk 27315 100

/-- `TemperatureType._normalize`: remember the as-received value/unit,
convert Fahrenheit/Kelvin input to Celsius, raise `ValueError` when
`self['value']` (note: the value *before* conversion) is below `-273.15`,
then store the converted value, round, and stamp `℃`. -/
def tempNormalize (d : DimData) : Except PyErr DimData := do
  let d : DimData := ⟨d.value, d.unit, some d.value, d.unit⟩
  let v : PyNum :=
    if !(optUnitIs d.unit (str "℃")) then
      if optUnitIs d.unit (str "F") then ⟨(d.value.val - 32) * 5 / 9, true⟩
      else if optUnitIs d.unit (str "K") then ⟨d.value.val - kelvinConst, true⟩
      else d.value
    else d.value
  if d.value.val < qMk (-27315) 100 then .error .valueError
  else
    let d : DimData := ⟨v, d.unit, d.original_value, d.original_unit⟩
    let d := roundDim d
    .ok ⟨d.value, some (.str (str "℃")), d.original_value, d.original_unit⟩

/-- `TemperatureType.__init__`: map `"C"` to `"℃"`, validate against
`UNITS`, the inherited constructor (one `_normalize`), then a second
explicit `_normalize` call. -/
def temperatureType (value : Json) (unit : Json) : Except PyErr DimData := do
  let unit := if jsonEqStr unit (str "C") then Json.str (str "℃") else unit
  if jsonInStrList unit tempUnits then
    let d ← dimInit value (some unit)
    let d ← tempNormalize d
    tempNormalize d
  else
    .error .unitError

/-- `EntityType` (`types.py`). -/
inductive EntityType where
  | PLANT
  | INVERTER
  | COLLECTOR
deriving DecidableEq, Repr

/-- The backing store of an `EnumType` instance: the integer code and the
title-cased member name. -/
structure EnumData where
  value : Int
  name : Str
deriving DecidableEq, Repr

/-- Model of Python `str.title()` on ASCII data: an alphabetic character is
uppercased when the previous character is not alphabetic and lowercased
otherwise. -/
def pyTitleGo : Bool → Str → Str
  | _, [] => []
  | prevAlpha, c :: t =>
    (if isAlphaA c then (if prevAlpha then toLowerA c else toUpperA c) else c)
      :: pyTitleGo (isAlphaA c) t

/-- Model of Python `str.title()`. -/
def pyTitle (s : Str) : Str := pyTitleGo false s

/-- `EnumType.__init__` applied to an `IntEnum` member: store the code and
the title-cased member name. -/
def mkEnumT (v : Int) (nameUC : Str) : EnumData := ⟨v, pyTitle nameUC⟩

/-- `State(n)`: by-value lookup in the `State` `IntEnum`, `ValueError` for
codes outside the member set. -/
def stateOfInt (n : Int) : Except PyErr EnumData :=
  if n = 1 then .ok (mkEnumT 1 (str "ONLINE"))
  else if n = 2 then .ok (mkEnumT 2 (str "OFFLINE"))
  else if n = 3 then .ok (mkEnumT 3 (str "ALARM"))
  else .error .valueError

/-- `InverterOfflineState(n)`. -/
def inverterOfflineOfInt (n : Int) : Except PyErr EnumData :=
  if n = 0 then .ok (mkEnumT 0 (str "NORMAL_OFFLINE"))
  else if n = 1 then .ok (mkEnumT 1 (str "ABNORMAL_OFFLINE"))
  else .error .valueError

/-- `InverterType(n)`. -/
def inverterTypeOfInt (n : Int) : Except PyErr EnumData :=
  if n = 1 then .ok (mkEnumT 1 (str "GRID"))
  else if n = 2 then .ok (mkEnumT 2 (str "STORAGE"))
  else .error .valueError

/-- `AcOutputType(n)`. -/
def acOutputOfInt (n : Int) : Except PyErr EnumData :=
  if n = 0 then .ok (mkEnumT 0 (str "SINGLE_PHASE"))
  else if n = 1 then .ok (mkEnumT 1 (str "THREE_PHASE"))
  else .error .valueError

/-- `InverterModel(n)`. -/
def inverterModelOfInt (n : Int) : Except PyErr EnumData :=
  if n = 1 then .ok (mkEnumT 1 (str "GRID_TYPE"))
  else if n = 2 then .ok (mkEnumT 2 (str "GRID_AND_LOAD_SIDE_METER"))
  else if n = 3 then .ok (mkEnumT 3 (str "GRID_CONNECTED_AND_GRID_SIDE_ELECTRICITY_METER"))
  else if n = 4 then .ok (mkEnumT 4 (str "ENERGY_STORAGE_AND_LOAD_SIDE_METER"))
  else if n = 5 then .ok (mkEnumT 5 (str "ENERGY_STORAGE_AND_GRID_SIDE_METER"))
  else if n = 6 then .ok (mkEnumT 6 (str "RESERVE"))
  else if n = 7 then .ok (mkEnumT 7 (str "OFF_GRID_ENERGY_STORAGE"))
  else if n = 8 then .ok (mkEnumT 8 (str "GRID_CONNECTED_ENERGY_STORAGE_DUAL_METER"))
  else if n = 1001 then .ok (mkEnumT 1001 (str "AC_COUPLE_WITHOUT_CT"))
  else if n = 1002 then .ok (mkEnumT 1002 (str "AC_COUPLE_WITH_CT"))
  else .error .valueError

/-- `PlantType(n)`. -/
def plantTypeOfInt (n : Int) : Except PyErr EnumData :=
  if n = 0 then .ok (mkEnumT 0 (str "GRID"))
  else if n = 1 then .ok (mkEnumT 1 (str "ENERGY_STORAGE"))
  else if n = 2 then .ok (mkEnumT 2 (str "AC_COUPLE"))
  else if n = 3 then .ok (mkEnumT 3 (str "EPM"))
  else if n = 4 then .ok (mkEnumT 4 (str "BUILT_IN_METER"))
  else if n = 5 then .ok (mkEnumT 5 (str "EXTERNAL_METER"))
  else if n = 6 then .ok (mkEnumT 6 (str "S5_OFFLINE_AND_PARALLEL_STORAGE"))
  else if n = 7 then .ok (mkEnumT 7 (str "S5_GRID_AND_PARALLEL_STORAGE"))
  else if n = 8 then .ok (mkEnumT 8 (str "GRID_AND_AC_COUPLE"))
  else if n = 9 then .ok (mkEnumT 9 (str "OFFGRID_STORAGE"))
  else if n = 10 then .ok (mkEnumT 10 (str "S6_GRID_AND_PARALLEL_STORAGE"))
  else if n = 11 then .ok (mkEnumT 11 (str "S6_OFFLINE_AND_PARALLEL_STORAGE"))
  else .error .valueError

/-- By-value `IntEnum` lookup applied to a raw payload value without an
`int(...)` conversion (as in the `state_exception_flag` branch): ints and
whole floats find members, everything else raises `ValueError`. -/
def enumFromJson (value : Json) (ofInt : Int → Except PyErr EnumData) : Except PyErr EnumData :=
  match value with
  | .int n => ofInt n
  | .num q => if qIsWhole q then ofInt q.num else .error .valueError
  | _ => .error .valueError

/-- The possible operands of `EnumType.__eq__` (Python booleans are ints). -/
inductive PyOperand where
  | enum (e : EnumData)
  | intO (n : Int)
  | strO (s : Str)
  | otherO
deriving DecidableEq, Repr

/-- `EnumType.__eq__`: compare code and name against another enumerated
value, the code against a raw int, the name against a string, and `False`
for anything else. -/
def enumEq (e : EnumData) (o : PyOperand) : Bool :=
  match o with
  | .enum f => e.value == f.value && e.name == f.name
  | .intO n => e.value == n
  | .strO s => e.name == s
  | .otherO => false

/-- The condition under which the key-normalization regex inserts `_`
between adjacent characters `p` and `c`: an uppercase letter not at the
start, a digit after a lowercase letter, or an uppercase letter after a
digit. -/
def sepCond (p c : Char) : Bool :=
  isUpperA c || (isLowerA p && isDigitA c) || (isDigitA p && isUpperA c)

/-- Separator insertion: walk the string remembering the previous character;
no separator is ever inserted before the first character. -/
def insSepGo : Option Char → Str → Str
  | _, [] => []
  | prev, c :: t =>
    let rest := insSepGo (some c) t
    match prev with
    | none => c :: rest
    | some p => if sepCond p c then '_' :: c :: rest else c :: rest

/-- The separator-insertion pass of the Key Normalizer
(`pattern.sub('_', key)` in `SolisDataFactory.create`). -/
def insSep (s : Str) : Str := insSepGo none s

/-- `re.sub(r'in_come', 'income', s)`: replace every (leftmost,
non-overlapping) occurrence of `in_come` by `income`. -/
def replaceIncome : Str → Str
  | 'i' :: 'n' :: '_' :: 'c' :: 'o' :: 'm' :: 'e' :: t => str "income" ++ replaceIncome t
  | c :: t => c :: replaceIncome t
  | [] => []

/-- The Key Normalizer: insert separators, lowercase, fix the `in_come`
false split. -/
def keyNormalize (key : Str) : Str := replaceIncome (lowerStr (insSep key))

/-- Every character of the string fails the ASCII uppercase test. -/
def noUpper (s : Str) : Bool := s.all (fun c => !isUpperA c)

/-- No ASCII digit immediately follows an ASCII lowercase letter. -/
def lowDigPairs : Str → Bool
  | a :: b :: t => !(isLowerA a && isDigitA b) && lowDigPairs (b :: t)
  | _ => true

/-- No ASCII digit immediately follows an ASCII uppercase letter: the inputs
on which the amended idempotence claim holds. -/
def noUpDig : Str → Bool
  | a :: b :: t => !(isUpperA a && isDigitA b) && noUpDig (b :: t)
  | _ => true

/-- Whether the first character is an ASCII digit. -/
def headDigit : Str → Bool
  | [] => false
  | c :: _ => isDigitA c

/-- `SolisDataFactory._key_is_unit`: unit-metadata keys end in `Str` or
`StrV2` or contain `unit` case-insensitively. -/
def keyIsUnit (key : Str) : Bool :=
  endsW key (str "Str") || hasInfixCI key (str "unit") || endsW key (str "StrV2")

/-- The phase/original suffix rule (`(?<=(Power|rrent|ltage))(A|B|C|Original)$`):
when the key ends in `A`/`B`/`C`/`Original` preceded by `Power`/`rrent`/`ltage`,
return the key with the suffix stripped. -/
def rule3strip (k : Str) : Option Str :=
  if endsW k (str "PowerOriginal") || endsW k (str "rrentOriginal")
      || endsW k (str "ltageOriginal") then
    some (dropLastN 8 k)
  else if endsW k (str "PowerA") || endsW k (str "PowerB") || endsW k (str "PowerC")
      || endsW k (str "rrentA") || endsW k (str "rrentB") || endsW k (str "rrentC")
      || endsW k (str "ltageA") || endsW k (str "ltageB") || endsW k (str "ltageC") then
    some (dropLastN 1 k)
  else none

/-- The Unit Resolver's sibling-lookup chain, the `if`/`elif` cascade of
`SolisDataFactory.create` (spec rules 2–8): direct `Str`/`Unit` sibling,
phase/original suffix, `owerOrigin`/`owerOriginV2`, `V2`, `Origin`,
`Min`/`Max`, `price`.  The first matching rule decides; within a rule a
`Unit` sibling overrides a `Str` sibling where the source checks both. -/
def resolveUnitChain (input : JObj) (key : Str) : Option Json :=
  match jLookup input (key ++ str "Str") with
  | some u => some u
  | none =>
  match jLookup input (key ++ str "Unit") with
  | some u => some u
  | none =>
  match rule3strip key with
  | some stem => jLookup input (stem ++ str "Str")
  | none =>
  if endsW key (str "owerOrigin") || endsW key (str "owerOriginV2") then
    jLookup input (str "powerStr")
  else if endsW key (str "V2") then
    let stem := dropLastN 2 key
    let u := jLookup input (stem ++ str "StrV2")
    match jLookup input (stem ++ str "UnitV2") with
    | some x => some x
    | none => u
  else if endsW key (str "Origin") then
    let stem := dropLastN 6 key
    let u := jLookup input (stem ++ str "Str")
    match jLookup input (stem ++ str "Unit") with
    | some x => some x
    | none => u
  else if endsW key (str "Min") || endsW key (str "Max") then
    let stem := dropLastN 3 key
    let u := jLookup input (stem ++ str "Str")
    match jLookup input (stem ++ str "Unit") with
    | some x => some x
    | none => u
  else if key = str "price" then
    match jLookup input (str "money") with
    | some u => some u
    | none => jLookup input (str "unit")
  else none

/-- The income override (spec rule 9): when the canonical key contains
`income`, the `money` sibling overrides any earlier unit (no change when
`money` is absent — the `KeyError` is swallowed). -/
def incomeAdjust (input : JObj) (newKey : Str) (unit : Option Json) : Option Json :=
  if hasInfixCI newKey (str "income") then
    match jLookup input (str "money") with
    | some m => some m
    | none => unit
  else unit

/-- The temperature default (spec rule 10): for canonical keys ending in
`temp`/`temperature` with no unit found yet, use the `tmpUnit` sibling when
present. -/
def tempAdjust (input : JObj) (newKey : Str) (unit : Option Json) : Option Json :=
  if lastN 4 newKey = str "temp" ∨ lastN 11 newKey = str "temperature" then
    match unit with
    | none => jLookup input (str "tmpUnit")
    | some u => some u
  else unit

/-- Strip one optional leading character, for matching `c?` in a reversed
suffix regex. -/
def stripOptChar (c : Char) : Str → Str
  | [] => []
  | x :: t => if x == c then t else x :: t

/-- After the trailing digits of `powe?r?_?\d{1,2}$` are consumed, match the
rest of the reversed key: optional `_`, optional `r`, optional `e`, then
`pow` (reversed). -/
def powTail (l : Str) : Bool :=
  isPfx (str "wop") (stripOptChar 'e' (stripOptChar 'r' (stripOptChar '_' l)))

/-- `re.search(r"powe{0,1}r{0,1}_?\d{1,2}$", key, re.IGNORECASE)`. -/
def powNumSuffix (k : Str) : Bool :=
  match (lowerStr k).reverse with
  | d1 :: rest =>
    if isDigitA d1 then
      (match rest with
       | d2 :: rest2 => (isDigitA d2 && powTail rest2) || powTail rest
       | [] => powTail rest)
    else false
  | [] => false

/-- `re.search(r"powe{0,1}r{0,1}$", key, re.IGNORECASE)`. -/
def powSuffix (k : Str) : Bool :=
  isPfx (str "wop") (stripOptChar 'e' (stripOptChar 'r' ((lowerStr k).reverse)))

/-- Match `.*UTC([+\-]?)(\d{2}):(\d{2})` at one position: literal `UTC`,
optional sign, two digits, `:`, two digits; the result is the offset in
minutes. -/
def utcMatchAt (l : Str) : Option Int :=
  match l with
  | 'U' :: 'T' :: 'C' :: rest =>
    let sign : Int := match rest with
      | '-' :: _ => -1
      | _ => 1
    let digs : Str := match rest with
      | '+' :: r => r
      | '-' :: r => r
      | r => r
    (match digs with
     | h1 :: h2 :: ':' :: m1 :: m2 :: _ =>
       if isDigitA h1 && isDigitA h2 && isDigitA m1 && isDigitA m2 then
         some (sign * ((digitsVal [h1, h2] : Int) * 60 + (digitsVal [m1, m2] : Int)))
       else none
     | _ => none)
  | _ => none

/-- `re.match(r'.*UTC([+\-]?)(\d{2}):(\d{2})', unit)`: the greedy `.*` picks
the rightmost position admitting a match. -/
def utcOffset : Str → Option Int
  | [] => none
  | c :: t =>
    match utcOffset t with
    | some off => some off
    | none => utcMatchAt (c :: t)

/-- The families of Dimensioned Values (the `DimensionedType` subclasses). -/
inductive DimFamily where
  | generic
  | energy
  | voltage
  | current
  | power
  | reactivePower
  | apparentPower
  | frequency
  | temperature
  | currency
deriving DecidableEq, Repr

/- Normalized output values: Dimensioned Values, Enumerated Values,
timestamps (naive or timezone-aware, in epoch seconds), raw passthrough
scalars, the raw-int case of the collector `type` branch, and nested
lists/records. -/
mutual
inductive SolisValue where
  | dim (fam : DimFamily) (d : DimData)
  | enumV (e : EnumData)
  | tsNaive (sec : Q)
  | tsTz (sec : Q) (offMinutes : Int)
  | intV (n : Int)
  | raw (j : Json)
  | arr (l : SVList)
  | record (r : SVRecord)
inductive SVList where
  | nil
  | cons (hd : SolisValue) (tl : SVList)
inductive SVRecord where
  | nil
  | cons (key : Str) (v : SolisValue) (tl : SVRecord)
end

/-- First binding of a canonical key in a normalized record. -/
def svLookup : SVRecord → Str → Option SolisValue
  | .nil, _ => none
  | .cons k v t, key => if k = key then some v else svLookup t key

/-- `input['dcInputtype'] + 1`, defaulting to `0` when the key is absent
(the `KeyError` is swallowed); non-numeric values raise `TypeError`. -/
def nrOfStrings (input : JObj) : Except PyErr Q :=
  match jLookup input (str "dcInputtype") with
  | none => .ok 0
  | some (.int n) => .ok (qOfInt (n + 1))
  | some (.num q) => .ok (q + qOfInt 1)
  | some _ => .error .typeError

/-- The drop rule: canonical keys whose first four characters are
`i_pv`/`u_pv`/`pow_`/`mppt` and whose last digit run exceeds the declared
string count are omitted. -/
def dropEntry (newKey : Str) (nr : Q) : Bool :=
  if newKey.take 4 ∈ [str "i_pv", str "u_pv", str "pow_", str "mppt"] then
    match (digitRuns newKey).getLast? with
    | some m => nr < qOfNat m
    | none => false
  else false

/-- `SolisDataFactory._create_typed_value`: dispatch on the resolved unit
when one is known (unit-set membership per family, case-folded for reactive
power; income/price keys; timestamp keys with a `UTC±HH:MM` unit), and on
canonical-key patterns when no unit is known.  A non-string unit falls
through the first four membership guards and raises `AttributeError` at the
`unit.lower()` guard. -/
def createTypedValue (t : EntityType) (key : Str) (value : Json) (unit : Option Json) :
    Except PyErr SolisValue :=
  match unit with
  | some (.str s) =>
    if energyCfg.unitsOf.contains s then
      (energyType value (some (.str s))).map (.dim .energy)
    else if voltageCfg.unitsOf.contains s then
      (voltageType value (some (.str s))).map (.dim .voltage)
    else if currentCfg.unitsOf.contains s then
      (currentType value (some (.str s))).map (.dim .current)
    else if powerCfg.unitsOf.contains s then
      (powerType value (some (.str s))).map (.dim .power)
    else if reactivePowerCfg.unitsOf.contains (lowerStr s) then
      (reactivePowerType value (some (.str (lowerStr s)))).map (.dim .reactivePower)
    else if apparentPowerCfg.unitsOf.contains s then
      (apparentPowerType value (some (.str s))).map (.dim .apparentPower)
    else if frequencyCfg.unitsOf.contains s then
      (frequencyType value (some (.str s))).map (.dim .frequency)
    else if tempUnits.contains s then
      (temperatureType value (.str s)).map (.dim .temperature)
    else if hasInfixCI key (str "_income") || hasInfixCI key (str "price") then
      (currencyType value (some (.str s))).map (.dim .currency)
    else if endsWCI key (str "_time") || endsWCI key (str "_timestamp")
        || endsWCI key (str "_date") then
      (match utcOffset s with
       | some off => (pyInt value).map (fun n => .tsTz (qMk n 1000) off)
       | none => (pyInt value).map (fun n => .tsNaive (qMk n 1000)))
    else
      (genericType value (some (.str s))).map (.dim .generic)
  | some _ => .error .attributeError
  | none =>
    if key = str "state" ∨ key = str "current_state" then do
      let n ← pyInt value
      (stateOfInt n).map .enumV
    else if key = str "state_exception_flag" then
      (enumFromJson value inverterOfflineOfInt).map .enumV
    else if key = str "ac_output_type" then do
      let n ← pyInt value
      (acOutputOfInt (if n = 0 then 0 else 1)).map .enumV
    else if key = str "inverter_meter_model" then do
      let n ← pyInt value
      (inverterModelOfInt n).map .enumV
    else if key = str "station_type" then do
      let n ← pyInt value
      (plantTypeOfInt n).map .enumV
    else if key = str "type" then
      (match t with
       | .PLANT => do
         let n ← pyInt value
         (plantTypeOfInt n).map .enumV
       | .INVERTER => do
         let n ← pyInt value
         (inverterTypeOfInt n).map .enumV
       | _ => (pyInt value).map .intV)
    else if endsWCI key (str "pec") || endsWCI key (str "percent") then do
      let n ← pyInt value
      (genericType (.int (n * 100)) (some (.str (str "%")))).map (.dim .generic)
    else if hasInfixCI key (str "voltage") then
      (voltageType value (some (.str voltageCfg.defaultUnit))).map (.dim .voltage)
    else if hasInfixCI key (str "upv") then
      (voltageType value (some (.str voltageCfg.defaultUnit))).map (.dim .voltage)
    else if key = str "u_a" ∨ key = str "u_b" ∨ key = str "u_c" then
      (voltageType value (some (.str voltageCfg.defaultUnit))).map (.dim .voltage)
    else if hasInfixCI key (str "current") then
      (currentType value (some (.str currentCfg.defaultUnit))).map (.dim .current)
    else if hasInfixCI key (str "ipv") then
      (currentType value (some (.str currentCfg.defaultUnit))).map (.dim .current)
    else if key = str "i_a" ∨ key = str "i_b" ∨ key = str "i_c" then
      (currentType value (some (.str currentCfg.defaultUnit))).map (.dim .current)
    else if key = str "p_a" ∨ key = str "p_b" ∨ key = str "p_c" then
      (powerType value (some (.str powerCfg.defaultUnit))).map (.dim .power)
    else if endsWCI key (str "looked_power") || endsWCI key (str "apparent_power") then
      (apparentPowerType value (some (.str apparentPowerCfg.defaultUnit))).map (.dim .apparentPower)
    else if hasInfixCI key (str "reactive_power") then
      (reactivePowerType value (some (.str reactivePowerCfg.defaultUnit))).map (.dim .reactivePower)
    else if powNumSuffix key then
      (powerType value (some (.str powerCfg.defaultUnit))).map (.dim .power)
    else if powSuffix key then
      (powerType value (some (.str powerCfg.defaultUnit))).map (.dim .power)
    else if endsWCI key (str "energy") then
      (energyType value (some (.str energyCfg.defaultUnit))).map (.dim .energy)
    else if hasInfix key (str "_time") then
      (pyInt value).map (fun n => .tsNaive (qMk n 1000))
    else if hasInfix key (str "_date") then
      (pyInt value).map (fun n => .tsNaive (qMk n 1000))
    else if endsWCI key (str "temperature") || endsWCI key (str "_temp")
        || hasInfixCI key (str "tmp_") then
      (temperatureType value (.str (str "℃"))).map (.dim .temperature)
    else
      .ok (.raw value)

/- `SolisDataFactory.create` / `_create_value`: walk the record in key
order; skip unit-metadata keys; normalize the key; resolve the unit (chain,
income override, timestamp munging, temperature default); recurse into
nested objects and arrays (array elements get no unit); apply the drop
rule. -/
mutual
def walkEntries (t : EntityType) (input : JObj) (nr : Q) : JObj → Except PyErr SVRecord
  | .nil => .ok .nil
  | .cons key value rest => do
    let entry ←
      (if keyIsUnit key then .ok none
       else do
         let newKey := keyNormalize key
         let unit := incomeAdjust input newKey (resolveUnitChain input key)
         let d ←
           (if lastN 9 newKey = str "timestamp" then
             match value with
             | .str sv =>
               createTypedValue t newKey (.str (takeBeforeSub sv (str "/s")))
                 (tempAdjust input newKey unit)
             | _ => (.error .typeError : Except PyErr SolisValue)
           else
             createValue t newKey value (tempAdjust input newKey unit))
         if dropEntry newKey nr then .ok none
         else .ok (some (newKey, d)))
    let rest' ← walkEntries t input nr rest
    match entry with
    | some (nk, sv) => .ok (.cons nk sv rest')
    | none => .ok rest'

def createValue (t : EntityType) (key : Str) (value : Json) (unit : Option Json) :
    Except PyErr SolisValue :=
  match value with
  | .obj o => do
    let nr ← nrOfStrings o
    (walkEntries t o nr o).map .record
  | .arr l => (walkArr t key l).map .arr
  | v => createTypedValue t key v unit

def walkArr (t : EntityType) (key : Str) : JList → Except PyErr SVList
  | .nil => .ok .nil
  | .cons h rest => do
    let v ← createValue t key h none
    let rest' ← walkArr t key rest
    .ok (.cons v rest')
end

/-- `SolisDataFactory.create`: read the declared string count from
`dcInputtype` and walk the entries of the record. -/
def SolisDataFactory.create (t : EntityType) (input : JObj) : Except PyErr SVRecord := do
  let nr ← nrOfStrings input
  walkEntries t input nr input

/-- The error taxonomy of `client.py`: `validation` stands for a plain
`SoliscloudError` raised directly by a precondition helper; the remaining
constructors are the transport-boundary kinds (`SoliscloudHttpError`,
`SoliscloudTimeoutError`, `SoliscloudApiError`) plus uncaught Python errors
(e.g. `re.match(None)`). -/
inductive SolisErr where
  | validation (msg : Str)
  | httpError (status : Int)
  | timeoutError
  | apiError (msg : Str)
  | pyError
deriving DecidableEq, Repr

/-- `PAGE_SIZE_ERR`. -/
def pageSizeErr : Str := str "page_size must be <= 100"

/-- `SoliscloudAPI._precondition_page_size`: raise a `SoliscloudError` when
`page_size > 100`. -/
def preconditionPageSize (pageSize : Int) : Except SolisErr Unit :=
  if pageSize > 100 then .error (.validation pageSizeErr) else .ok ()

/-- One outgoing POST: the endpoint resource path and the JSON body (the
signed headers are derived deterministically from these and the
credentials, so they are not modelled separately). -/
structure HttpRequest where
  resource : Str
  params : List (Str × Json)

/-- The transport oracle standing for `_post_data_json`: given a request it
returns the `data` payload or one of the transport-boundary errors. -/
def Transport := HttpRequest → Except SolisErr Json

/-- The result of an endpoint call together with the list of HTTP requests
that were issued during the call. -/
abbrev CallResult := Except SolisErr Json × List HttpRequest

/-- `SoliscloudAPI._get_records`: issue the POST, then return
`result['page']['records']` when a `page` key is present, else
`result['records']`; a missing key (`KeyError`) becomes a wrapped
`SoliscloudApiError("Malformed data")`, a non-object payload an uncaught
Python error. -/
def getRecords (resource : Str) (params : List (Str × Json)) (transport : Transport) :
    CallResult :=
  let req : HttpRequest := ⟨resource, params⟩
  match transport req with
  | .error e => (.error e, [req])
  | .ok j =>
    (match j with
     | .obj o =>
       (match jLookup o (str "page") with
        | some (.obj po) =>
          (match jLookup po (str "records") with
           | some r => .ok r
           | none => .error (.apiError (str "Malformed data")))
        | some _ => .error .pyError
        | none =>
          (match jLookup o (str "records") with
           | some r => .ok r
           | none => .error (.apiError (str "Malformed data"))))
     | _ => .error .pyError, [req])

/-- The date-format preconditions of `SoliscloudAPI._verify_date`. -/
inductive DateFormat where
  | DAY
  | MONTH
  | YEAR
deriving DecidableEq, Repr

/-- Does a string consist of digits in the shape required by the format
(`YYYY-MM-DD` / `YYYY-MM` / `YYYY`)? -/
def dateShapeOk (format : DateFormat) (s : Str) : Bool :=
  match format, s with
  | .DAY, [a, b, c, d, '-', e, f, '-', g, h] =>
    [a, b, c, d, e, f, g, h].all isDigitA
  | .MONTH, [a, b, c, d, '-', e, f] => [a, b, c, d, e, f].all isDigitA
  | .YEAR, [a, b, c, d] => [a, b, c, d].all isDigitA
  | _, _ => false

/-- `SoliscloudAPI._verify_date`: raise a `SoliscloudError` naming the
expected format when the regex does not match; calling it with `None`
(an optional argument never supplied) raises an uncaught `TypeError` from
`re.match`. -/
def verifyDate (format : DateFormat) (date : Option Str) : Except SolisErr Unit :=
  match date with
  | none => .error .pyError
  | some s =>
    if dateShapeOk format s then .ok ()
    else
      .error (.validation
        (match format with
         | .DAY => str "time must be in format YYYY-MM-DD"
         | .MONTH => str "month must be in format YYYY-MM"
         | .YEAR => str "year must be in format YYYY"))

/-- The `inverter_sn` argument of `inverter_shelf_time`: an int, a string, a
list of ints/strings, or anything else (including the default `None`). -/
inductive SnArg where
  | intSn (n : Int)
  | strSn (s : Str)
  | listSn (l : List (Int ⊕ Str))
  | noneSn
deriving Repr

/-- Decimal digits of a natural number (kernel-reducible via fuel). -/
def natToStrGo : Nat → Nat → Str
  | 0, _ => []
  | fuel + 1, m =>
    if m < 10 then [Char.ofNat (m + 48)]
    else natToStrGo fuel (m / 10) ++ [Char.ofNat (m % 10 + 48)]

/-- Decimal representation of an integer, the model of Python `str(int)`. -/
def intToStr (n : Int) : Str :=
  if n < 0 then '-' :: natToStrGo (n.natAbs + 1) n.natAbs
  else natToStrGo (n.natAbs + 1) n.natAbs

/-- `",".join(str(i) for i in l)`. -/
def joinComma : List (Int ⊕ Str) → Str
  | [] => []
  | [x] => (match x with | .inl n => intToStr n | .inr s => s)
  | x :: xs =>
    (match x with | .inl n => intToStr n | .inr s => s) ++ ',' :: joinComma xs

/-- `user_station_list` (paged): page-size precondition, then build
`pageNo`/`pageSize`(/`nmiCode`) parameters and fetch records. -/
def user_station_list (pageNo pageSize : Int) (nmiCode : Option Str)
    (transport : Transport) : CallResult :=
  match preconditionPageSize pageSize with
  | .error e => (.error e, [])
  | .ok _ =>
    let params := [(str "pageNo", Json.int pageNo), (str "pageSize", Json.int pageSize)]
    let params := params ++
      (match nmiCode with
       | some c => [(str "nmiCode", Json.str c)]
       | none => [])
    getRecords (str "/v1/api/userStationList") params transport

/-- `collector_list` (paged). -/
def collector_list (pageNo pageSize : Int) (stationId : Option Json) (nmiCode : Option Str)
    (transport : Transport) : CallResult :=
  match preconditionPageSize pageSize with
  | .error e => (.error e, [])
  | .ok _ =>
    let params := [(str "pageNo", Json.int pageNo), (str "pageSize", Json.int pageSize)]
    let params := params ++
      (match stationId with
       | some i => [(str "stationId", i)]
       | none => [])
    let params := params ++
      (match nmiCode with
       | some c => [(str "nmiCode", Json.str c)]
       | none => [])
    getRecords (str "/v1/api/collectorList") params transport

/-- `inverter_list` (paged). -/
def inverter_list (pageNo pageSize : Int) (stationId : Option Json) (nmiCode : Option Str)
    (transport : Transport) : CallResult :=
  match preconditionPageSize pageSize with
  | .error e => (.error e, [])
  | .ok _ =>
    let params := [(str "pageNo", Json.int pageNo), (str "pageSize", Json.int pageSize)]
    let params := params ++
      (match stationId with
       | some i => [(str "stationId", i)]
       | none => [])
    let params := params ++
      (match nmiCode with
       | some c => [(str "nmiCode", Json.str c)]
       | none => [])
    getRecords (str "/v1/api/inverterList") params transport

/-- `inverter_shelf_time` (paged): page-size precondition first, then the
serial-number argument is converted (raising a `SoliscloudError` for
anything that is not an int, a string, or a list). -/
def inverter_shelf_time (pageNo pageSize : Int) (inverterSn : SnArg)
    (transport : Transport) : CallResult :=
  match preconditionPageSize pageSize with
  | .error e => (.error e, [])
  | .ok _ =>
    let params := [(str "pageNo", Json.int pageNo), (str "pageSize", Json.int pageSize)]
    match
      (match inverterSn with
       | .intSn n => .ok (intToStr n)
       | .strSn s => .ok s
       | .listSn l => .ok (joinComma l)
       | .noneSn =>
         .error (.validation
           (str "Cannot parse inverter serials, pass inverter_sn as int, str or list"))
        : Except SolisErr Str) with
    | .error e => (.error e, [])
    | .ok sn =>
      let params := params ++ [(str "sn", Json.str sn)]
      getRecords (str "/v1/api/inverter/shelfTime") params transport

/-- `alarm_list` (paged): page size, then exactly one of station id /
device serial, then the two date preconditions. -/
def alarm_list (pageNo pageSize : Int) (stationId deviceSn : Option Json)
    (begintime endtime : Option Str) (nmiCode : Option Str)
    (transport : Transport) : CallResult :=
  match preconditionPageSize pageSize with
  | .error e => (.error e, [])
  | .ok _ =>
    let params := [(str "pageNo", Json.int pageNo), (str "pageSize", Json.int pageSize)]
    match
      (match stationId, deviceSn with
       | some i, none => .ok [(str "stationId", i)]
       | none, some d => .ok [(str "alarmDeviceSn", d)]
       | _, _ =>
         .error (.validation (str "Only pass one of station_id or device_sn as identifier"))
        : Except SolisErr (List (Str × Json))) with
    | .error e => (.error e, [])
    | .ok idp =>
      match verifyDate .DAY begintime with
      | .error e => (.error e, [])
      | .ok _ =>
        match verifyDate .DAY endtime with
        | .error e => (.error e, [])
        | .ok _ =>
          let params := params ++ idp ++
            [(str "alarmBeginTime", Json.str (begintime.getD [])),
             (str "alarmEndTime", Json.str (endtime.getD []))] ++
            (match nmiCode with
             | some c => [(str "nmiCode", Json.str c)]
             | none => [])
          getRecords (str "/v1/api/alarmList") params transport

/-- `station_detail_list` (paged). -/
def station_detail_list (pageNo pageSize : Int) (transport : Transport) : CallResult :=
  match preconditionPageSize pageSize with
  | .error e => (.error e, [])
  | .ok _ =>
    getRecords (str "/v1/api/stationDetailList")
      [(str "pageNo", Json.int pageNo), (str "pageSize", Json.int pageSize)] transport

/-- `inverter_detail_list` (paged). -/
def inverter_detail_list (pageNo pageSize : Int) (transport : Transport) : CallResult :=
  match preconditionPageSize pageSize with
  | .error e => (.error e, [])
  | .ok _ =>
    getRecords (str "/v1/api/inverterDetailList")
      [(str "pageNo", Json.int pageNo), (str "pageSize", Json.int pageSize)] transport

/-- `station_day_energy_list` (paged, requires a `YYYY-MM-DD` time). -/
def station_day_energy_list (pageNo pageSize : Int) (time : Option Str)
    (transport : Transport) : CallResult :=
  match preconditionPageSize pageSize with
  | .error e => (.error e, [])
  | .ok _ =>
    match verifyDate .DAY time with
    | .error e => (.error e, [])
    | .ok _ =>
      getRecords (str "/v1/api/stationDayEnergyList")
        [(str "pageNo", Json.int pageNo), (str "pageSize", Json.int pageSize),
         (str "time", Json.str (time.getD []))] transport

/-- `station_month_energy_list` (paged, requires a `YYYY-MM` month). -/
def station_month_energy_list (pageNo pageSize : Int) (month : Option Str)
    (transport : Transport) : CallResult :=
  match preconditionPageSize pageSize with
  | .error e => (.error e, [])
  | .ok _ =>
    match verifyDate .MONTH month with
    | .error e => (.error e, [])
    | .ok _ =>
      getRecords (str "/v1/api/stationMonthEnergyList")
        [(str "pageNo", Json.int pageNo), (str "pageSize", Json.int pageSize),
         (str "time", Json.str (month.getD []))] transport

/-- `station_year_energy_list` (paged, requires a `YYYY` year). -/
def station_year_energy_list (pageNo pageSize : Int) (year : Option Str)
    (transport : Transport) : CallResult :=
  match preconditionPageSize pageSize with
  | .error e => (.error e, [])
  | .ok _ =>
    match verifyDate .YEAR year with
    | .error e => (.error e, [])
    | .ok _ =>
      getRecords (str "/v1/api/stationYearEnergyList")
        [(str "pageNo", Json.int pageNo), (str "pageSize", Json.int pageSize),
         (str "time", Json.str (year.getD []))] transport

/-- `epm_list` (paged). -/
def epm_list (pageNo pageSize : Int) (stationId : Option Json)
    (transport : Transport) : CallResult :=
  match preconditionPageSize pageSize with
  | .error e => (.error e, [])
  | .ok _ =>
    let params := [(str "pageNo", Json.int pageNo), (str "pageSize", Json.int pageSize)] ++
      (match stationId with
       | some i => [(str "stationId", i)]
       | none => [])
    getRecords (str "/v1/api/epmList") params transport

/-- `weather_list` (paged). -/
def weather_list (pageNo pageSize : Int) (stationId : Option Json) (nmiCode : Option Str)
    (transport : Transport) : CallResult :=
  match preconditionPageSize pageSize with
  | .error e => (.error e, [])
  | .ok _ =>
    let params := [(str "pageNo", Json.int pageNo), (str "pageSize", Json.int pageSize)] ++
      (match stationId with
       | some i => [(str "stationId", i)]
       | none => []) ++
      (match nmiCode with
       | some c => [(str "nmiCode", Json.str c)]
       | none => [])
    getRecords (str "/v1/api/weatherList") params transport

/-- The record of the C1 scenario:
`{"acOutputPowerOriginV2": 3, "acOutputPowerStrV2": "kW"}`. -/
def c1input : JObj :=
  .cons (str "acOutputPowerOriginV2") (.int 3)
    (.cons (str "acOutputPowerStrV2") (.str (str "kW")) .nil)

/-- C1 counterexample: on the input `{"acOutputPowerOriginV2": 3,
"acOutputPowerStrV2": "kW"}` the Unit Resolver resolves no unit at all for
`acOutputPowerOriginV2` (not `"kW"` as claimed), and the Record Walker
emits the raw passthrough value `3` for `ac_output_power_origin_v2`
(not a Dimensioned Value `3000 W`). -/
theorem C1_counterexample :
    resolveUnitChain c1input (str "acOutputPowerOriginV2") = none ∧
    SolisDataFactory.create .INVERTER c1input =
      .ok (.cons (str "ac_output_power_origin_v2") (.raw (.int 3)) .nil) ∧
    (SolisDataFactory.create .INVERTER c1input).map
        (fun r => svLookup r (str "ac_output_power_origin_v2")) =
      .ok (some (.raw (.int 3))) :=
  ⟨rfl, rfl, rfl⟩

/-- C1 (amended): for the input record `{"acOutputPowerOriginV2": 3,
"acOutputPowerStrV2": "kW"}`, the key `acOutputPowerOriginV2` matches the
`owerOrigin`/`owerOriginV2` resolver rule, which looks only for a
`powerStr` sibling; that sibling is absent, so no unit is resolved (the
later `V2` → `StrV2` rule is shadowed and never consulted), and the Record
Walker emits for canonical key `ac_output_power_origin_v2` the raw
passthrough value `3`. -/
theorem C1_amended :
    endsW (str "acOutputPowerOriginV2") (str "owerOriginV2") = true ∧
    jLookup c1input (str "powerStr") = none ∧
    resolveUnitChain c1input (str "acOutputPowerOriginV2") = none ∧
    SolisDataFactory.create .INVERTER c1input =
      .ok (.cons (str "ac_output_power_origin_v2") (.raw (.int 3)) .nil) :=
  ⟨rfl, rfl, rfl, rfl⟩

/-- C2: evaluation of the code at the failing input `PowerType(3, "kW")`.
`PowerType.__init__` runs `_normalize` twice; the second pass overwrites
`original_value`/`original_unit` with the already-normalized `3000`/`"W"`,
so the as-received magnitude `(3, "kW")` is lost.  `EnergyType` (which
normalizes only once) preserves it, witnessing the intended behaviour of
the shared `SiType._normalize`. -/
theorem C2_power_overwrites_original :
    powerType (.int 3) (some (.str (str "kW"))) =
      .ok ⟨⟨3000, false⟩, some (.str (str "W")),
           some ⟨3000, false⟩, some (.str (str "W"))⟩ ∧
    energyType (.int 3) (some (.str (str "kWh"))) =
      .ok ⟨⟨3, false⟩, some (.str (str "kWh")),
           some ⟨3, false⟩, some (.str (str "kWh"))⟩ ∧
    some (Json.str (str "kW")) ≠ some (Json.str (str "W")) :=
  ⟨rfl, rfl, by simp [str]⟩

/-- C4: evaluation of the code at the failing input `(-300, "F")`.  The
post-conversion Celsius value is `(-300 - 32) * 5 / 9 = -1660/9 ≈ -184.4`,
which is at or above `-273.15`, so the claim says construction succeeds;
but `TemperatureType._normalize` compares the pre-conversion value `-300`
against `-273.15` and raises the range error. -/
theorem C4_fahrenheit_rejected :
    temperatureType (.int (-300)) (.str (str "F")) = .error .valueError ∧
    qMk (-27315) 100 ≤ (qOfInt (-300) - 32) * 5 / 9 :=
  ⟨rfl, by decide⟩

/-- The record of the C7 scenario: `dcInputtype = 1` (declared string count
2), readings `pow1`..`pow4` with unit siblings `pow1Str`..`pow4Str`. -/
def c7input : JObj :=
  .cons (str "dcInputtype") (.int 1)
    (.cons (str "pow1") (.int 400) (.cons (str "pow1Str") (.str (str "W"))
    (.cons (str "pow2") (.int 410) (.cons (str "pow2Str") (.str (str "W"))
    (.cons (str "pow3") (.int 420) (.cons (str "pow3Str") (.str (str "W"))
    (.cons (str "pow4") (.int 430) (.cons (str "pow4Str") (.str (str "W")) .nil))))))))

/-- C7: with `dcInputtype = 1` (count 2) the walker's output contains
entries for `pow_1` and `pow_2` (Dimensioned power values) and no entries
for `pow_3` and `pow_4`. -/
theorem C7_drop_rule :
    (SolisDataFactory.create .INVERTER c7input).map (fun r =>
      ((svLookup r (str "pow_1")).isSome, (svLookup r (str "pow_2")).isSome,
       (svLookup r (str "pow_3")).isSome, (svLookup r (str "pow_4")).isSome)) =
      .ok (true, true, false, false) ∧
    (SolisDataFactory.create .INVERTER c7input).map (fun r => svLookup r (str "pow_1")) =
      .ok (some (.dim .power ⟨⟨400, false⟩, some (.str (str "W")),
        some ⟨400, false⟩, some (.str (str "W"))⟩)) :=
  ⟨rfl, rfl⟩

/-- C8: the Enumerated Value for device-state code 1 equals the raw int `1`
and the string `"Online"`; equality with any other int, any other string,
any non-matching Enumerated Value, and any operand of another type is
false. -/
theorem C8_enum_equality (n : Int) (s : Str) (f : EnumData)
    (hn : n ≠ 1) (hs : s ≠ str "Online") (hf : ¬(f.value = 1 ∧ f.name = str "Online")) :
    ∃ e, stateOfInt 1 = .ok e ∧
      enumEq e (.intO 1) = true ∧
      enumEq e (.strO (str "Online")) = true ∧
      enumEq e (.enum e) = true ∧
      enumEq e (.intO n) = false ∧
      enumEq e (.strO s) = false ∧
      enumEq e (.enum f) = false ∧
      enumEq e .otherO = false := by
  refine ⟨⟨1, str "Online"⟩, by rfl, by rfl, by rfl, by rfl, ?_, ?_, ?_, by rfl⟩
  · simp [enumEq]
    omega
  · simp [enumEq]
    exact fun h => hs h.symm
  · simp [enumEq]
    intro hv
    exact fun hn' => hf ⟨hv.symm, hn'.symm⟩

/-- C8 witness: instantiation at `n = 2`, `s = "Offline"`, and the
Enumerated Value for state code 2. -/
theorem C8_enum_equality_witness :
    ∃ e, stateOfInt 1 = .ok e ∧
      enumEq e (.intO 1) = true ∧
      enumEq e (.strO (str "Online")) = true ∧
      enumEq e (.enum e) = true ∧
      enumEq e (.intO 2) = false ∧
      enumEq e (.strO (str "Offline")) = false ∧
      enumEq e (.enum ⟨2, str "Offline"⟩) = false ∧
      enumEq e .otherO = false :=
  C8_enum_equality 2 (str "Offline") ⟨2, str "Offline"⟩
    (by decide) (by simp [str]) (by simp [str])

/-- C9: for every paged list endpoint, a call with `page_size > 100` fails
with the plain validation error (`SoliscloudError(PAGE_SIZE_ERR)`,
modelled by the `validation` constructor — not one of the wrapped
transport-boundary kinds), and no HTTP request is issued. -/
theorem C9_page_size_validation (pageSize : Int) (h : pageSize > 100)
    (pageNo : Int) (sid dsn : Option Json) (nmi bt et tim mon yr : Option Str)
    (sn : SnArg) (tr : Transport) :
    user_station_list pageNo pageSize nmi tr = (.error (.validation pageSizeErr), []) ∧
    collector_list pageNo pageSize sid nmi tr = (.error (.validation pageSizeErr), []) ∧
    inverter_list pageNo pageSize sid nmi tr = (.error (.validation pageSizeErr), []) ∧
    inverter_shelf_time pageNo pageSize sn tr = (.error (.validation pageSizeErr), []) ∧
    alarm_list pageNo pageSize sid dsn bt et nmi tr = (.error (.validation pageSizeErr), []) ∧
    station_detail_list pageNo pageSize tr = (.error (.validation pageSizeErr), []) ∧
    inverter_detail_list pageNo pageSize tr = (.error (.validation pageSizeErr), []) ∧
    station_day_energy_list pageNo pageSize tim tr = (.error (.validation pageSizeErr), []) ∧
    station_month_energy_list pageNo pageSize mon tr = (.error (.validation pageSizeErr), []) ∧
    station_year_energy_list pageNo pageSize yr tr = (.error (.validation pageSizeErr), []) ∧
    epm_list pageNo pageSize sid tr = (.error (.validation pageSizeErr), []) ∧
    weather_list pageNo pageSize sid nmi tr = (.error (.validation pageSizeErr), []) := by
  refine ⟨?_, ?_, ?_, ?_, ?_, ?_, ?_, ?_, ?_, ?_, ?_, ?_⟩ <;>
    simp [user_station_list, collector_list, inverter_list, inverter_shelf_time,
      alarm_list, station_detail_list, inverter_detail_list,
      station_day_energy_list, station_month_energy_list,
      station_year_energy_list, epm_list, weather_list,
      preconditionPageSize, h]

/-- C9 witness: instantiation at `page_size = 101` with concrete arguments
and a transport oracle that would answer every request. -/
theorem C9_page_size_validation_witness :
    user_station_list 1 101 none (fun _ => .ok (.obj .nil)) =
      (.error (.validation pageSizeErr), []) ∧
    collector_list 1 101 none none (fun _ => .ok (.obj .nil)) =
      (.error (.validation pageSizeErr), []) ∧
    inverter_list 1 101 none none (fun _ => .ok (.obj .nil)) =
      (.error (.validation pageSizeErr), []) ∧
    inverter_shelf_time 1 101 .noneSn (fun _ => .ok (.obj .nil)) =
      (.error (.validation pageSizeErr), []) ∧
    alarm_list 1 101 none none none none none (fun _ => .ok (.obj .nil)) =
      (.error (.validation pageSizeErr), []) ∧
    station_detail_list 1 101 (fun _ => .ok (.obj .nil)) =
      (.error (.validation pageSizeErr), []) ∧
    inverter_detail_list 1 101 (fun _ => .ok (.obj .nil)) =
      (.error (.validation pageSizeErr), []) ∧
    station_day_energy_list 1 101 none (fun _ => .ok (.obj .nil)) =
      (.error (.validation pageSizeErr), []) ∧
    station_month_energy_list 1 101 none (fun _ => .ok (.obj .nil)) =
      (.error (.validation pageSizeErr), []) ∧
    station_year_energy_list 1 101 none (fun _ => .ok (.obj .nil)) =
      (.error (.validation pageSizeErr), []) ∧
    epm_list 1 101 none (fun _ => .ok (.obj .nil)) =
      (.error (.validation pageSizeErr), []) ∧
    weather_list 1 101 none none (fun _ => .ok (.obj .nil)) =
      (.error (.validation pageSizeErr), []) :=
  C9_page_size_validation 101 (by decide) 1 none none none none none none none none
    .noneSn (fun _ => .ok (.obj .nil))

/-- Induction along the entry spine of an object (the values are not
recursed into). -/
def JObj.spineInduction {motive : JObj → Prop} (hnil : motive .nil)
    (hcons : ∀ k v t, motive t → motive (.cons k v t)) : ∀ o, motive o
  | .nil => hnil
  | .cons k v t => hcons k v t (JObj.spineInduction hnil hcons t)

/-- A successful lookup exhibits a binding of the object. -/
theorem objMem_of_jLookup {k : Str} {j : Json} :
    ∀ {o : JObj}, jLookup o k = some j → objMem k j o := by
  intro o
  induction o using JObj.spineInduction with
  | hnil => intro h; simp [jLookup] at h
  | hcons k' v' t ih =>
    intro h
    by_cases hk : k' = k
    · rw [jLookup, if_pos hk] at h
      exact Or.inl ⟨hk, by injection h⟩
    · rw [jLookup, if_neg hk] at h
      exact Or.inr (ih h)

/-- A bind whose continuation always fails fails. -/
theorem bind_error_exists {α β : Type} (x : Except PyErr α) (f : α → Except PyErr β)
    (h : ∀ a, ∃ e, f a = .error e) : ∃ e, x.bind f = .error e := by
  cases x with
  | error e => exact ⟨e, rfl⟩
  | ok a => simpa [Except.bind] using h a

/-- The `state`/`current_state` dispatcher branch raises `ValueError` for
integer codes outside `{1, 2, 3}` (via `State(int(value))`). -/
theorem createTypedValue_state_err (t : EntityType) (key : Str) (v : Int)
    (hk : key = str "state" ∨ key = str "current_state")
    (hv : v ≠ 1 ∧ v ≠ 2 ∧ v ≠ 3) :
    createTypedValue t key (.int v) none = .error .valueError := by
  have hs : stateOfInt v = .error .valueError := by
    rw [stateOfInt, if_neg hv.1, if_neg hv.2.1, if_neg hv.2.2]
  rcases hk with rfl | rfl
  · show (stateOfInt v).map SolisValue.enumV = .error .valueError
    rw [hs]; rfl
  · show (stateOfInt v).map SolisValue.enumV = .error .valueError
    rw [hs]; rfl

/-- Walking any entry list that contains a `state`/`currentState` binding
with an unresolvable unit and an out-of-range integer code fails. -/
theorem walkEntries_state_error (t : EntityType) (input : JObj) (nr : Q) (k : Str) (v : Int)
    (hk : k = str "state" ∨ k = str "currentState")
    (hu : resolveUnitChain input k = none)
    (hv : v ≠ 1 ∧ v ≠ 2 ∧ v ≠ 3) :
    ∀ rem : JObj, objMem k (.int v) rem →
      ∃ e, walkEntries t input nr rem = .error e := by
  intro rem
  induction rem using JObj.spineInduction with
  | hnil => intro hmem; exact absurd hmem (by simp [objMem])
  | hcons k' v' rest ih =>
    intro hmem
    rcases hmem with ⟨hk', hv'⟩ | hmem
    · subst hv'
      rw [hk']
      rcases hk with rfl | rfl
      · refine ⟨.valueError, ?_⟩
        show ((createTypedValue t (str "state") (.int v)
                (resolveUnitChain input (str "state"))).bind
              (fun d => Except.ok (some (str "state", d)))).bind
             (fun entry => (walkEntries t input nr rest).bind (fun rest' =>
                match entry with
                | some (nk, sv) => Except.ok (.cons nk sv rest')
                | none => Except.ok rest')) = .error .valueError
        rw [hu, createTypedValue_state_err t (str "state") v (Or.inl rfl) hv]
        rfl
      · refine ⟨.valueError, ?_⟩
        show ((createTypedValue t (str "current_state") (.int v)
                (resolveUnitChain input (str "currentState"))).bind
              (fun d => Except.ok (some (str "current_state", d)))).bind
             (fun entry => (walkEntries t input nr rest).bind (fun rest' =>
                match entry with
                | some (nk, sv) => Except.ok (.cons nk sv rest')
                | none => Except.ok rest')) = .error .valueError
        rw [hu, createTypedValue_state_err t (str "current_state") v (Or.inr rfl) hv]
        rfl
    · obtain ⟨e, he⟩ := ih hmem
      exact bind_error_exists _ _ (fun entry => ⟨e, by rw [he]; cases entry <;> rfl⟩)

/-- C10: for every input record containing key `state` (or `currentState`)
whose unit resolves to nothing and whose value is an integer outside
`{1, 2, 3}`, record normalization raises an uncaught error (`ValueError`
from `State(int(value))`) — no normalized record is returned. -/
theorem C10_state_range_error (t : EntityType) (input : JObj) (k : Str) (v : Int)
    (hk : k = str "state" ∨ k = str "currentState")
    (hl : jLookup input k = some (.int v))
    (hu : resolveUnitChain input k = none)
    (hv : v ≠ 1 ∧ v ≠ 2 ∧ v ≠ 3) :
    ∃ e, SolisDataFactory.create t input = .error e := by
  have hmem := objMem_of_jLookup hl
  rw [SolisDataFactory.create]
  cases hnr : nrOfStrings input with
  | error e => exact ⟨e, rfl⟩
  | ok nr =>
    obtain ⟨e, he⟩ := walkEntries_state_error t input nr k v hk hu hv input hmem
    exact ⟨e, he⟩

/-- C10 witness: the record `{"state": 5}` fails to normalize. -/
theorem C10_state_range_error_witness :
    ∃ e, SolisDataFactory.create .INVERTER (.cons (str "state") (.int 5) .nil) = .error e :=
  C10_state_range_error .INVERTER (.cons (str "state") (.int 5) .nil) (str "state") 5
    (Or.inl rfl) rfl rfl (by decide)

/-- A suffix test fails when the reversed strings disagree at the first
character. -/
theorem endsW_false_head (s pat : Str) (a b : Char) (r1 r2 : Str)
    (hs : s.reverse = a :: r1) (hpat : pat.reverse = b :: r2)
    (hab : (b == a) = false) : endsW s pat = false := by
  simp only [endsW, hs, hpat, isPfx, hab, Bool.false_and]

/-- A suffix test fails when the reversed strings disagree at the third
character. -/
theorem endsW_false_third (s pat : Str) (a1 a2 a3 b1 b2 b3 : Char) (r1 r2 : Str)
    (hs : s.reverse = a1 :: a2 :: a3 :: r1) (hpat : pat.reverse = b1 :: b2 :: b3 :: r2)
    (h3 : (b3 == a3) = false) : endsW s pat = false := by
  simp only [endsW, hs, hpat, isPfx, h3, Bool.false_and, Bool.and_false]

/-- Rule 7 of the Unit Resolver for a `Min`-suffixed key: with no direct
`Str`/`Unit` sibling, rules 2–6 fail and the stem's `Str` sibling is used. -/
theorem C5_min_case (input : JObj) (stem : Str) (u : Json)
    (h1 : jLookup input (stem ++ str "Min" ++ str "Str") = none)
    (h2 : jLookup input (stem ++ str "Min" ++ str "Unit") = none)
    (h3 : jLookup input (stem ++ str "Str") = some u)
    (h4 : jLookup input (stem ++ str "Unit") = none) :
    resolveUnitChain input (stem ++ str "Min") = some u := by
  have hrev : (stem ++ str "Min").reverse = 'n' :: 'i' :: 'M' :: stem.reverse := by
    rw [List.reverse_append]
    rfl
  have hstem : dropLastN 3 (stem ++ str "Min") = stem := by
    have hl : (stem ++ str "Min").length - 3 = stem.length := by
      simp [List.length_append, str]
    rw [dropLastN, hl]
    exact List.take_left stem _
  have e01 : endsW (stem ++ str "Min") (str "PowerOriginal") = false :=
    endsW_false_head _ (str "PowerOriginal") 'n' 'l' _ _ hrev rfl (by decide)
  have e02 : endsW (stem ++ str "Min") (str "rrentOriginal") = false :=
    endsW_false_head _ (str "rrentOriginal") 'n' 'l' _ _ hrev rfl (by decide)
  have e03 : endsW (stem ++ str "Min") (str "ltageOriginal") = false :=
    endsW_false_head _ (str "ltageOriginal") 'n' 'l' _ _ hrev rfl (by decide)
  have e04 : endsW (stem ++ str "Min") (str "PowerA") = false :=
    endsW_false_head _ (str "PowerA") 'n' 'A' _ _ hrev rfl (by decide)
  have e05 : endsW (stem ++ str "Min") (str "PowerB") = false :=
    endsW_false_head _ (str "PowerB") 'n' 'B' _ _ hrev rfl (by decide)
  have e06 : endsW (stem ++ str "Min") (str "PowerC") = false :=
    endsW_false_head _ (str "PowerC") 'n' 'C' _ _ hrev rfl (by decide)
  have e07 : endsW (stem ++ str "Min") (str "rrentA") = false :=
    endsW_false_head _ (str "rrentA") 'n' 'A' _ _ hrev rfl (by decide)
  have e08 : endsW (stem ++ str "Min") (str "rrentB") = false :=
    endsW_false_head _ (str "rrentB") 'n' 'B' _ _ hrev rfl (by decide)
  have e09 : endsW (stem ++ str "Min") (str "rrentC") = false :=
    endsW_false_head _ (str "rrentC") 'n' 'C' _ _ hrev rfl (by decide)
  have e10 : endsW (stem ++ str "Min") (str "ltageA") = false :=
    endsW_false_head _ (str "ltageA") 'n' 'A' _ _ hrev rfl (by decide)
  have e11 : endsW (stem ++ str "Min") (str "ltageB") = false :=
    endsW_false_head _ (str "ltageB") 'n' 'B' _ _ hrev rfl (by decide)
  have e12 : endsW (stem ++ str "Min") (str "ltageC") = false :=
    endsW_false_head _ (str "ltageC") 'n' 'C' _ _ hrev rfl (by decide)
  have e13 : endsW (stem ++ str "Min") (str "owerOrigin") = false :=
    endsW_false_third _ (str "owerOrigin") 'n' 'i' 'M' 'n' 'i' 'g' _ _ hrev rfl (by decide)
  have e14 : endsW (stem ++ str "Min") (str "owerOriginV2") = false :=
    endsW_false_head _ (str "owerOriginV2") 'n' '2' _ _ hrev rfl (by decide)
  have e15 : endsW (stem ++ str "Min") (str "V2") = false :=
    endsW_false_head _ (str "V2") 'n' '2' _ _ hrev rfl (by decide)
  have e16 : endsW (stem ++ str "Min") (str "Origin") = false :=
    endsW_false_third _ (str "Origin") 'n' 'i' 'M' 'n' 'i' 'g' _ _ hrev rfl (by decide)
  have e17 : endsW (stem ++ str "Min") (str "Min") = true := by
    simp [endsW, hrev, isPfx, str]
  have hr3 : rule3strip (stem ++ str "Min") = none := by
    rw [rule3strip, e01, e02, e03, e04, e05, e06, e07, e08, e09, e10, e11, e12]
    simp
  rw [resolveUnitChain, h1, h2, hr3, e13, e14, e15, e16, e17]
  simp [hstem, h3, h4]

/-- Rule 7 of the Unit Resolver for a `Max`-suffixed key: with no direct
`Str`/`Unit` sibling, rules 2–6 fail and the stem's `Str` sibling is used. -/
theorem C5_max_case (input : JObj) (stem : Str) (u : Json)
    (h1 : jLookup input (stem ++ str "Max" ++ str "Str") = none)
    (h2 : jLookup input (stem ++ str "Max" ++ str "Unit") = none)
    (h3 : jLookup input (stem ++ str "Str") = some u)
    (h4 : jLookup input (stem ++ str "Unit") = none) :
    resolveUnitChain input (stem ++ str "Max") = some u := by
  have hrev : (stem ++ str "Max").reverse = 'x' :: 'a' :: 'M' :: stem.reverse := by
    rw [List.reverse_append]
    rfl
  have hstem : dropLastN 3 (stem ++ str "Max") = stem := by
    have hl : (stem ++ str "Max").length - 3 = stem.length := by
      simp [List.length_append, str]
    rw [dropLastN, hl]
    exact List.take_left stem _
  have e01 : endsW (stem ++ str "Max") (str "PowerOriginal") = false :=
    endsW_false_head _ (str "PowerOriginal") 'x' 'l' _ _ hrev rfl (by decide)
  have e02 : endsW (stem ++ str "Max") (str "rrentOriginal") = false :=
    endsW_false_head _ (str "rrentOriginal") 'x' 'l' _ _ hrev rfl (by decide)
  have e03 : endsW (stem ++ str "Max") (str "ltageOriginal") = false :=
    endsW_false_head _ (str "ltageOriginal") 'x' 'l' _ _ hrev rfl (by decide)
  have e04 : endsW (stem ++ str "Max") (str "PowerA") = false :=
    endsW_false_head _ (str "PowerA") 'x' 'A' _ _ hrev rfl (by decide)
  have e05 : endsW (stem ++ str "Max") (str "PowerB") = false :=
    endsW_false_head _ (str "PowerB") 'x' 'B' _ _ hrev rfl (by decide)
  have e06 : endsW (stem ++ str "Max") (str "PowerC") = false :=
    endsW_false_head _ (str "PowerC") 'x' 'C' _ _ hrev rfl (by decide)
  have e07 : endsW (stem ++ str "Max") (str "rrentA") = false :=
    endsW_false_head _ (str "rrentA") 'x' 'A' _ _ hrev rfl (by decide)
  have e08 : endsW (stem ++ str "Max") (str "rrentB") = false :=
    endsW_false_head _ (str "rrentB") 'x' 'B' _ _ hrev rfl (by decide)
  have e09 : endsW (stem ++ str "Max") (str "rrentC") = false :=
    endsW_false_head _ (str "rrentC") 'x' 'C' _ _ hrev rfl (by decide)
  have e10 : endsW (stem ++ str "Max") (str "ltageA") = false :=
    endsW_false_head _ (str "ltageA") 'x' 'A' _ _ hrev rfl (by decide)
  have e11 : endsW (stem ++ str "Max") (str "ltageB") = false :=
    endsW_false_head _ (str "ltageB") 'x' 'B' _ _ hrev rfl (by decide)
  have e12 : endsW (stem ++ str "Max") (str "ltageC") = false :=
    endsW_false_head _ (str "ltageC") 'x' 'C' _ _ hrev rfl (by decide)
  have e13 : endsW (stem ++ str "Max") (str "owerOrigin") = false :=
    endsW_false_head _ (str "owerOrigin") 'x' 'n' _ _ hrev rfl (by decide)
  have e14 : endsW (stem ++ str "Max") (str "owerOriginV2") = false :=
    endsW_false_head _ (str "owerOriginV2") 'x' '2' _ _ hrev rfl (by decide)
  have e15 : endsW (stem ++ str "Max") (str "V2") = false :=
    endsW_false_head _ (str "V2") 'x' '2' _ _ hrev rfl (by decide)
  have e16 : endsW (stem ++ str "Max") (str "Origin") = false :=
    endsW_false_head _ (str "Origin") 'x' 'n' _ _ hrev rfl (by decide)
  have e17 : endsW (stem ++ str "Max") (str "Min") = false :=
    endsW_false_head _ (str "Min") 'x' 'n' _ _ hrev rfl (by decide)
  have e18 : endsW (stem ++ str "Max") (str "Max") = true := by
    simp [endsW, hrev, isPfx, str]
  have hr3 : rule3strip (stem ++ str "Max") = none := by
    rw [rule3strip, e01, e02, e03, e04, e05, e06, e07, e08, e09, e10, e11, e12]
    simp
  rw [resolveUnitChain, h1, h2, hr3, e13, e14, e15, e16, e17, e18]
  simp [hstem, h3, h4]

/-- C5: for every record containing a `Min`- or `Max`-suffixed reading key
with no direct `<key>Str`/`<key>Unit` sibling, and with the stripped stem's
`Str` sibling as its unit key (no stem `Unit` sibling), the Unit Resolver
resolves the suffixed key's unit to the value of the stem's `Str` sibling:
rule 7 fires after rules 2–6 fail. -/
theorem C5_min_max_rule (input : JObj) (stem k : Str) (u : Json)
    (hk : k = stem ++ str "Min" ∨ k = stem ++ str "Max")
    (h1 : jLookup input (k ++ str "Str") = none)
    (h2 : jLookup input (k ++ str "Unit") = none)
    (h3 : jLookup input (stem ++ str "Str") = some u)
    (h4 : jLookup input (stem ++ str "Unit") = none) :
    resolveUnitChain input k = some u := by
  rcases hk with rfl | rfl
  · exact C5_min_case input stem u h1 h2 h3 h4
  · exact C5_max_case input stem u h1 h2 h3 h4

/-- C5 witness: in `{"fooMin": 7, "fooStr": "W"}` the unit of `fooMin`
resolves to `"W"`. -/
theorem C5_min_max_rule_witness :
    resolveUnitChain
      (.cons (str "fooMin") (.int 7) (.cons (str "fooStr") (.str (str "W")) .nil))
      (str "fooMin") = some (.str (str "W")) :=
  C5_min_max_rule
    (.cons (str "fooMin") (.int 7) (.cons (str "fooStr") (.str (str "W")) .nil))
    (str "foo") (str "fooMin") (.str (str "W")) (Or.inl rfl) rfl rfl rfl rfl

/-- `_round_to_int` does not change the numeric value. -/
theorem roundToIntNum_val (n : PyNum) : (roundToIntNum n).val = n.val := by
  rw [roundToIntNum]
  split <;> rfl

/-- `_round_to_int` is idempotent. -/
theorem roundToIntNum_idem (n : PyNum) : roundToIntNum (roundToIntNum n) = roundToIntNum n := by
  conv_lhs => rw [roundToIntNum, roundToIntNum_val]
  by_cases h : n.val.den = 1
  · rw [if_pos h, roundToIntNum, if_pos h]
  · rw [if_neg h]

/-- Multiplying a reduced rational by one gives it back. -/
theorem qMulOne (v : Q) (hval : qMk v.num (v.den : Int) = v) : v * qOfInt 1 = v := by
  show qMk (v.num * 1) ((v.den : Int) * ((1 : Nat) : Int)) = v
  simpa using hval

/-- `EnergyType` at its default unit `kWh`: the original fields are
populated with the normalized value and the default unit. -/
theorem energyType_default (v : Q) (hval : qMk v.num (v.den : Int) = v) :
    energyType (.num v) (some (.str (str "kWh"))) =
      .ok ⟨roundToIntNum ⟨v, true⟩, some (.str (str "kWh")),
           some (roundToIntNum ⟨v, true⟩), some (.str (str "kWh"))⟩ := by
  show Except.ok
      (⟨roundToIntNum ⟨v * qOfInt 1, true⟩, some (.str (str "kWh")),
        some (roundToIntNum ⟨v, true⟩), some (.str (str "kWh"))⟩ : DimData) = _
  rw [qMulOne v hval]

/-- `VoltageType` at its default unit `V`. -/
theorem voltageType_default (v : Q) (hval : qMk v.num (v.den : Int) = v) :
    voltageType (.num v) (some (.str (str "V"))) =
      .ok ⟨roundToIntNum ⟨v, true⟩, some (.str (str "V")),
           some (roundToIntNum ⟨v, true⟩), some (.str (str "V"))⟩ := by
  show Except.ok
      (⟨roundToIntNum ⟨v * qOfInt 1, true⟩, some (.str (str "V")),
        some (roundToIntNum ⟨v, true⟩), some (.str (str "V"))⟩ : DimData) = _
  rw [qMulOne v hval]

/-- `CurrentType` at its default unit `A`. -/
theorem currentType_default (v : Q) (hval : qMk v.num (v.den : Int) = v) :
    currentType (.num v) (some (.str (str "A"))) =
      .ok ⟨roundToIntNum ⟨v, true⟩, some (.str (str "A")),
           some (roundToIntNum ⟨v, true⟩), some (.str (str "A"))⟩ := by
  show Except.ok
      (⟨roundToIntNum ⟨v * qOfInt 1, true⟩, some (.str (str "A")),
        some (roundToIntNum ⟨v, true⟩), some (.str (str "A"))⟩ : DimData) = _
  rw [qMulOne v hval]

/-- First normalization pass of `PowerType` at its default unit `W`. -/
theorem siInit_power_default (v : Q) (hval : qMk v.num (v.den : Int) = v) :
    siInit powerCfg (.num v) (some (.str (str "W"))) =
      .ok ⟨roundToIntNum ⟨v, true⟩, some (.str (str "W")),
           some (roundToIntNum ⟨v, true⟩), some (.str (str "W"))⟩ := by
  show Except.ok
      (⟨roundToIntNum ⟨v * qOfInt 1, true⟩, some (.str (str "W")),
        some (roundToIntNum ⟨v, true⟩), some (.str (str "W"))⟩ : DimData) = _
  rw [qMulOne v hval]

/-- The second normalization pass at the default unit is the identity. -/
theorem siNormalize_power_again (v : Q) (hval : qMk v.num (v.den : Int) = v) :
    siNormalize powerCfg
      ⟨roundToIntNum ⟨v, true⟩, some (.str (str "W")),
       some (roundToIntNum ⟨v, true⟩), some (.str (str "W"))⟩ =
      .ok ⟨roundToIntNum ⟨v, true⟩, some (.str (str "W")),
           some (roundToIntNum ⟨v, true⟩), some (.str (str "W"))⟩ := by
  show Except.ok
      (⟨roundToIntNum ⟨(roundToIntNum ⟨v, true⟩).val * qOfInt 1, true⟩, some (.str (str "W")),
        some (roundToIntNum (roundToIntNum ⟨v, true⟩)), some (.str (str "W"))⟩ : DimData) = _
  rw [roundToIntNum_val, roundToIntNum_idem]
  show Except.ok
      (⟨roundToIntNum ⟨v * qOfInt 1, true⟩, some (.str (str "W")),
        some (roundToIntNum ⟨v, true⟩), some (.str (str "W"))⟩ : DimData) = _
  rw [qMulOne v hval]

/-- `PowerType` at its default unit `W` (two normalization passes). -/
theorem powerType_default (v : Q) (hval : qMk v.num (v.den : Int) = v) :
    powerType (.num v) (some (.str (str "W"))) =
      .ok ⟨roundToIntNum ⟨v, true⟩, some (.str (str "W")),
           some (roundToIntNum ⟨v, true⟩), some (.str (str "W"))⟩ := by
  show (siInit powerCfg (.num v) (some (.str (str "W")))).bind
      (fun d => siNormalize powerCfg d) = _
  rw [siInit_power_default v hval]
  show siNormalize powerCfg
      ⟨roundToIntNum ⟨v, true⟩, some (.str (str "W")),
       some (roundToIntNum ⟨v, true⟩), some (.str (str "W"))⟩ = _
  exact siNormalize_power_again v hval

/-- First normalization pass of `ReactivePowerType` at its default `var`. -/
theorem siInit_reactive_default (v : Q) (hval : qMk v.num (v.den : Int) = v) :
    siInit reactivePowerCfg (.num v) (some (.str (str "var"))) =
      .ok ⟨roundToIntNum ⟨v, true⟩, some (.str (str "var")),
           some (roundToIntNum ⟨v, true⟩), some (.str (str "var"))⟩ := by
  show Except.ok
      (⟨roundToIntNum ⟨v * qOfInt 1, true⟩, some (.str (str "var")),
        some (roundToIntNum ⟨v, true⟩), some (.str (str "var"))⟩ : DimData) = _
  rw [qMulOne v hval]

/-- `ReactivePowerType` at its default unit `var`. -/
theorem reactivePowerType_default (v : Q) (hval : qMk v.num (v.den : Int) = v) :
    reactivePowerType (.num v) (some (.str (str "var"))) =
      .ok ⟨roundToIntNum ⟨v, true⟩, some (.str (str "var")),
           some (roundToIntNum ⟨v, true⟩), some (.str (str "var"))⟩ := by
  show (siInit reactivePowerCfg (.num v) (some (.str (str "var")))).bind
      (fun d => siNormalize reactivePowerCfg d) = _
  rw [siInit_reactive_default v hval]
  show Except.ok
      (⟨roundToIntNum ⟨(roundToIntNum ⟨v, true⟩).val * qOfInt 1, true⟩, some (.str (str "var")),
        some (roundToIntNum (roundToIntNum ⟨v, true⟩)), some (.str (str "var"))⟩ : DimData) = _
  rw [roundToIntNum_val, roundToIntNum_idem]
  show Except.ok
      (⟨roundToIntNum ⟨v * qOfInt 1, true⟩, some (.str (str "var")),
        some (roundToIntNum ⟨v, true⟩), some (.str (str "var"))⟩ : DimData) = _
  rw [qMulOne v hval]

/-- First normalization pass of `ApparentPowerType` at its default `VA`. -/
theorem siInit_apparent_default (v : Q) (hval : qMk v.num (v.den : Int) = v) :
    siInit apparentPowerCfg (.num v) (some (.str (str "VA"))) =
      .ok ⟨roundToIntNum ⟨v, true⟩, some (.str (str "VA")),
           some (roundToIntNum ⟨v, true⟩), some (.str (str "VA"))⟩ := by
  show Except.ok
      (⟨roundToIntNum ⟨v * qOfInt 1, true⟩, some (.str (str "VA")),
        some (roundToIntNum ⟨v, true⟩), some (.str (str "VA"))⟩ : DimData) = _
  rw [qMulOne v hval]

/-- `ApparentPowerType` at its default unit `VA`. -/
theorem apparentPowerType_default (v : Q) (hval : qMk v.num (v.den : Int) = v) :
    apparentPowerType (.num v) (some (.str (str "VA"))) =
      .ok ⟨roundToIntNum ⟨v, true⟩, some (.str (str "VA")),
           some (roundToIntNum ⟨v, true⟩), some (.str (str "VA"))⟩ := by
  show (siInit apparentPowerCfg (.num v) (some (.str (str "VA")))).bind
      (fun d => siNormalize apparentPowerCfg d) = _
  rw [siInit_apparent_default v hval]
  show Except.ok
      (⟨roundToIntNum ⟨(roundToIntNum ⟨v, true⟩).val * qOfInt 1, true⟩, some (.str (str "VA")),
        some (roundToIntNum (roundToIntNum ⟨v, true⟩)), some (.str (str "VA"))⟩ : DimData) = _
  rw [roundToIntNum_val, roundToIntNum_idem]
  show Except.ok
      (⟨roundToIntNum ⟨v * qOfInt 1, true⟩, some (.str (str "VA")),
        some (roundToIntNum ⟨v, true⟩), some (.str (str "VA"))⟩ : DimData) = _
  rw [qMulOne v hval]

/-- First normalization pass of `FrequencyType` at its default `Hz`. -/
theorem siInit_frequency_default (v : Q) (hval : qMk v.num (v.den : Int) = v) :
    siInit frequencyCfg (.num v) (some (.str (str "Hz"))) =
      .ok ⟨roundToIntNum ⟨v, true⟩, some (.str (str "Hz")),
           some (roundToIntNum ⟨v, true⟩), some (.str (str "Hz"))⟩ := by
  show Except.ok
      (⟨roundToIntNum ⟨v * qOfInt 1, true⟩, some (.str (str "Hz")),
        some (roundToIntNum ⟨v, true⟩), some (.str (str "Hz"))⟩ : DimData) = _
  rw [qMulOne v hval]

/-- `FrequencyType` at its default unit `Hz`. -/
theorem frequencyType_default (v : Q) (hval : qMk v.num (v.den : Int) = v) :
    frequencyType (.num v) (some (.str (str "Hz"))) =
      .ok ⟨roundToIntNum ⟨v, true⟩, some (.str (str "Hz")),
           some (roundToIntNum ⟨v, true⟩), some (.str (str "Hz"))⟩ := by
  show (siInit frequencyCfg (.num v) (some (.str (str "Hz")))).bind
      (fun d => siNormalize frequencyCfg d) = _
  rw [siInit_frequency_default v hval]
  show Except.ok
      (⟨roundToIntNum ⟨(roundToIntNum ⟨v, true⟩).val * qOfInt 1, true⟩, some (.str (str "Hz")),
        some (roundToIntNum (roundToIntNum ⟨v, true⟩)), some (.str (str "Hz"))⟩ : DimData) = _
  rw [roundToIntNum_val, roundToIntNum_idem]
  show Except.ok
      (⟨roundToIntNum ⟨v * qOfInt 1, true⟩, some (.str (str "Hz")),
        some (roundToIntNum ⟨v, true⟩), some (.str (str "Hz"))⟩ : DimData) = _
  rw [qMulOne v hval]

/-- First `TemperatureType._normalize` pass at `℃`. -/
theorem tempNormalize_first (v : Q) (htemp : ¬(v < qMk (-27315) 100)) :
    tempNormalize ⟨⟨v, true⟩, some (.str (str "℃")), none, none⟩ =
      .ok ⟨roundToIntNum ⟨v, true⟩, some (.str (str "℃")),
           some (roundToIntNum ⟨v, true⟩), some (.str (str "℃"))⟩ := by
  rw [tempNormalize]
  split
  · next h => exact absurd h htemp
  · rfl

/-- Second `TemperatureType._normalize` pass at `℃` is the identity. -/
theorem tempNormalize_again (v : Q) (htemp : ¬(v < qMk (-27315) 100)) :
    tempNormalize ⟨roundToIntNum ⟨v, true⟩, some (.str (str "℃")),
      some (roundToIntNum ⟨v, true⟩), some (.str (str "℃"))⟩ =
      .ok ⟨roundToIntNum ⟨v, true⟩, some (.str (str "℃")),
           some (roundToIntNum ⟨v, true⟩), some (.str (str "℃"))⟩ := by
  rw [tempNormalize]
  split
  · next h =>
    rw [show (⟨roundToIntNum ⟨v, true⟩, some (.str (str "℃")),
      some (roundToIntNum ⟨v, true⟩), some (.str (str "℃"))⟩ : DimData).value.val
        = v from roundToIntNum_val _] at h
    exact absurd h htemp
  · show Except.ok
        (⟨roundToIntNum (roundToIntNum ⟨v, true⟩), some (.str (str "℃")),
          some (roundToIntNum (roundToIntNum ⟨v, true⟩)), some (.str (str "℃"))⟩ : DimData) = _
    rw [roundToIntNum_idem]

/-- `TemperatureType` at its default unit `℃` (two passes). -/
theorem temperatureType_default (v : Q) (htemp : ¬(v < qMk (-27315) 100)) :
    temperatureType (.num v) (.str (str "℃")) =
      .ok ⟨roundToIntNum ⟨v, true⟩, some (.str (str "℃")),
           some (roundToIntNum ⟨v, true⟩), some (.str (str "℃"))⟩ := by
  show (tempNormalize ⟨⟨v, true⟩, some (.str (str "℃")), none, none⟩).bind
      tempNormalize = _
  rw [tempNormalize_first v htemp]
  exact tempNormalize_again v htemp

/-- C3 counterexample: `EnergyType(3, "kWh")` (the default unit) populates
`original_value` (with `3`), so the original fields are not left empty. -/
theorem C3_counterexample :
    (energyType (.int 3) (some (.str (str "kWh")))).map (fun d => d.original_value) =
      .ok (some ⟨3, false⟩) ∧
    some (⟨3, false⟩ : PyNum) ≠ (none : Option PyNum) :=
  ⟨rfl, by simp⟩

/-- C3 (amended): for every quantity family and every reduced rational `v`
(with `v ≥ -273.15` for temperature), constructing with the family's
default unit populates `original_value`/`original_unit` with exactly the
normalized value and the default unit, so `original()` coincides with
`(value, unit)`; only currency leaves the fields unpopulated. -/
theorem C3_default_unit_originals (v : Q)
    (hval : qMk v.num (v.den : Int) = v) (htemp : ¬(v < qMk (-27315) 100)) :
    (∃ d, energyType (.num v) (some (.str (str "kWh"))) = .ok d ∧
      d.unit = some (.str (str "kWh")) ∧
      d.original_value = some d.value ∧ d.original_unit = d.unit) ∧
    (∃ d, voltageType (.num v) (some (.str (str "V"))) = .ok d ∧
      d.unit = some (.str (str "V")) ∧
      d.original_value = some d.value ∧ d.original_unit = d.unit) ∧
    (∃ d, currentType (.num v) (some (.str (str "A"))) = .ok d ∧
      d.unit = some (.str (str "A")) ∧
      d.original_value = some d.value ∧ d.original_unit = d.unit) ∧
    (∃ d, powerType (.num v) (some (.str (str "W"))) = .ok d ∧
      d.unit = some (.str (str "W")) ∧
      d.original_value = some d.value ∧ d.original_unit = d.unit) ∧
    (∃ d, reactivePowerType (.num v) (some (.str (str "var"))) = .ok d ∧
      d.unit = some (.str (str "var")) ∧
      d.original_value = some d.value ∧ d.original_unit = d.unit) ∧
    (∃ d, apparentPowerType (.num v) (some (.str (str "VA"))) = .ok d ∧
      d.unit = some (.str (str "VA")) ∧
      d.original_value = some d.value ∧ d.original_unit = d.unit) ∧
    (∃ d, frequencyType (.num v) (some (.str (str "Hz"))) = .ok d ∧
      d.unit = some (.str (str "Hz")) ∧
      d.original_value = some d.value ∧ d.original_unit = d.unit) ∧
    (∃ d, temperatureType (.num v) (.str (str "℃")) = .ok d ∧
      d.unit = some (.str (str "℃")) ∧
      d.original_value = some d.value ∧ d.original_unit = d.unit) ∧
    (∀ u, currencyType (.num v) u =
      .ok ⟨⟨v, true⟩, u, none, none⟩) := by
  refine ⟨⟨_, energyType_default v hval, rfl, rfl, rfl⟩,
    ⟨_, voltageType_default v hval, rfl, rfl, rfl⟩,
    ⟨_, currentType_default v hval, rfl, rfl, rfl⟩,
    ⟨_, powerType_default v hval, rfl, rfl, rfl⟩,
    ⟨_, reactivePowerType_default v hval, rfl, rfl, rfl⟩,
    ⟨_, apparentPowerType_default v hval, rfl, rfl, rfl⟩,
    ⟨_, frequencyType_default v hval, rfl, rfl, rfl⟩,
    ⟨_, temperatureType_default v htemp, rfl, rfl, rfl⟩,
    fun u => rfl⟩

/-- C3 witness: instantiation at `v = 3`. -/
theorem C3_default_unit_originals_witness :
    (∃ d, energyType (.num 3) (some (.str (str "kWh"))) = .ok d ∧
      d.unit = some (.str (str "kWh")) ∧
      d.original_value = some d.value ∧ d.original_unit = d.unit) ∧
    (∃ d, voltageType (.num 3) (some (.str (str "V"))) = .ok d ∧
      d.unit = some (.str (str "V")) ∧
      d.original_value = some d.value ∧ d.original_unit = d.unit) ∧
    (∃ d, currentType (.num 3) (some (.str (str "A"))) = .ok d ∧
      d.unit = some (.str (str "A")) ∧
      d.original_value = some d.value ∧ d.original_unit = d.unit) ∧
    (∃ d, powerType (.num 3) (some (.str (str "W"))) = .ok d ∧
      d.unit = some (.str (str "W")) ∧
      d.original_value = some d.value ∧ d.original_unit = d.unit) ∧
    (∃ d, reactivePowerType (.num 3) (some (.str (str "var"))) = .ok d ∧
      d.unit = some (.str (str "var")) ∧
      d.original_value = some d.value ∧ d.original_unit = d.unit) ∧
    (∃ d, apparentPowerType (.num 3) (some (.str (str "VA"))) = .ok d ∧
      d.unit = some (.str (str "VA")) ∧
      d.original_value = some d.value ∧ d.original_unit = d.unit) ∧
    (∃ d, frequencyType (.num 3) (some (.str (str "Hz"))) = .ok d ∧
      d.unit = some (.str (str "Hz")) ∧
      d.original_value = some d.value ∧ d.original_unit = d.unit) ∧
    (∃ d, temperatureType (.num 3) (.str (str "℃")) = .ok d ∧
      d.unit = some (.str (str "℃")) ∧
      d.original_value = some d.value ∧ d.original_unit = d.unit) ∧
    (∀ u, currencyType (.num 3) u =
      .ok ⟨⟨3, true⟩, u, none, none⟩) :=
  C3_default_unit_originals 3 (by decide) (by decide)

/- Development for the Key Normalizer idempotence analysis: characterize
`replaceIncome`, show each normalization pass preserves the invariants
`noUpper` and `lowDigPairs` and leaves no `in_come` infix, and conclude
idempotence on `noUpDig` inputs. -/

theorem charToNat_ofNat_small (n : Nat) (h : n < 0xd800) : (Char.ofNat n).toNat = n := by
  rw [Char.ofNat, dif_pos (Or.inl h)]
  rfl

theorem isUpperA_toLowerA (c : Char) : isUpperA (toLowerA c) = false := by
  rw [toLowerA]
  by_cases h : isUpperA c = true
  · rw [if_pos h]
    rw [isUpperA] at h ⊢
    simp only [Bool.and_eq_true, decide_eq_true_eq] at h
    rw [charToNat_ofNat_small _ (by omega)]
    simp only [Bool.and_eq_false_iff, decide_eq_false_iff_not]
    omega
  · rw [if_neg h]
    exact Bool.not_eq_true _ ▸ h

theorem toLowerA_eq_self (c : Char) (h : isUpperA c = false) : toLowerA c = c := by
  rw [toLowerA, if_neg]
  rw [h]
  exact Bool.false_ne_true

theorem isDigitA_toLowerA (c : Char) : isDigitA (toLowerA c) = isDigitA c := by
  rw [toLowerA]
  by_cases h : isUpperA c = true
  · rw [if_pos h]
    rw [isUpperA] at h
    simp only [Bool.and_eq_true, decide_eq_true_eq] at h
    rw [isDigitA, isDigitA, charToNat_ofNat_small _ (by omega)]
    rw [Bool.eq_iff_iff]
    simp only [Bool.and_eq_true, decide_eq_true_eq]
    omega
  · rw [if_neg h]

theorem replaceIncome_eq (l : Str) : replaceIncome l =
    if isPfx ['i','n','_','c','o','m','e'] l = true then
      'i' :: 'n' :: 'c' :: 'o' :: 'm' :: 'e' :: replaceIncome (l.drop 7)
    else match l with | [] => [] | c :: t => c :: replaceIncome t := by
  rw [replaceIncome.eq_def]
  split
  · rfl
  · next c t h =>
    rw [if_neg ?hng]
    case hng =>
      intro hp
      rcases t with _ | ⟨c2, _ | ⟨c3, _ | ⟨c4, _ | ⟨c5, _ | ⟨c6, _ | ⟨c7, t'⟩⟩⟩⟩⟩⟩ <;>
        simp only [isPfx, Bool.and_eq_true, beq_iff_eq, Bool.false_eq_true, and_false] at hp
      obtain ⟨h1, h2, h3, h4, h5, h6, h7, -⟩ := hp
      exact h t' h1.symm (by rw [← h2, ← h3, ← h4, ← h5, ← h6, ← h7])
  · rw [if_neg (by simp [isPfx])]

theorem isPfx_decomp : ∀ (p s : Str), isPfx p s = true → s = p ++ s.drop p.length := by
  intro p
  induction p with
  | nil => intro s _; simp
  | cons a as ih =>
    intro s hp
    cases s with
    | nil => exact absurd hp (by simp [isPfx])
    | cons c cs =>
      simp only [isPfx, Bool.and_eq_true, beq_iff_eq] at hp
      obtain ⟨hac, htl⟩ := hp
      simpa [hac] using congrArg (c :: ·) (ih cs htl)

theorem isPfx_false_1 (a b : Char) (p s : Str) (h : (a == b) = false) :
    isPfx (a :: p) (b :: s) = false := by
  simp only [isPfx, h, Bool.false_and]

theorem isPfx_false_3 (a1 a2 a3 b1 b2 b3 : Char) (p s : Str) (h : (a3 == b3) = false) :
    isPfx (a1 :: a2 :: a3 :: p) (b1 :: b2 :: b3 :: s) = false := by
  simp only [isPfx, h, Bool.false_and, Bool.and_false]

theorem noUpper_cons (c : Char) (t : Str) :
    noUpper (c :: t) = (!isUpperA c && noUpper t) := by
  simp [noUpper]

theorem noUpper_drop (l : Str) (k : Nat) (h : noUpper l = true) :
    noUpper (l.drop k) = true := by
  simp only [noUpper, List.all_eq_true] at h ⊢
  intro c hc
  exact h c (List.mem_of_mem_drop hc)

theorem lowDigPairs_tail (a : Char) (t : Str) (h : lowDigPairs (a :: t) = true) :
    lowDigPairs t = true := by
  cases t with
  | nil => rfl
  | cons b t' =>
    simp only [lowDigPairs, Bool.and_eq_true] at h
    exact h.2

theorem noUpDig_tail (a : Char) (t : Str) (h : noUpDig (a :: t) = true) :
    noUpDig t = true := by
  cases t with
  | nil => rfl
  | cons b t' =>
    simp only [noUpDig, Bool.and_eq_true] at h
    exact h.2

theorem lowerStr_eq_self (s : Str) (h : noUpper s = true) : lowerStr s = s := by
  induction s with
  | nil => rfl
  | cons c t ih =>
    rw [noUpper_cons, Bool.and_eq_true, Bool.not_eq_true'] at h
    simp only [lowerStr, List.map_cons]
    rw [toLowerA_eq_self c h.1]
    exact congrArg (c :: ·) (ih h.2)

theorem noUpper_lowerStr (s : Str) : noUpper (lowerStr s) = true := by
  induction s with
  | nil => rfl
  | cons c t ih =>
    simp only [lowerStr, List.map_cons, noUpper_cons, Bool.and_eq_true, Bool.not_eq_true']
    exact ⟨isUpperA_toLowerA c, ih⟩

theorem hasInfix_cons (c : Char) (t pat : Str) :
    hasInfix (c :: t) pat = (isPfx pat (c :: t) || hasInfix t pat) := rfl

theorem isPfx_replaceIncome : ∀ (t p : Str), ¬ ('i' ∈ p) →
    isPfx p (replaceIncome t) = true → isPfx p t = true := by
  intro t
  induction t with
  | nil =>
    intro p _ hp
    cases p with
    | nil => rfl
    | cons a as => exact absurd hp (by simp [replaceIncome, isPfx])
  | cons c t' ih =>
    intro p hni hp
    rw [replaceIncome_eq] at hp
    by_cases hc : isPfx ['i','n','_','c','o','m','e'] (c :: t') = true
    · rw [if_pos hc] at hp
      cases p with
      | nil => rfl
      | cons a as =>
        simp only [isPfx, Bool.and_eq_true, beq_iff_eq] at hp
        refine absurd ?_ hni
        rw [hp.1]
        exact List.mem_cons_self 'i' as
    · rw [if_neg hc] at hp
      cases p with
      | nil => rfl
      | cons a as =>
        simp only [isPfx, Bool.and_eq_true, beq_iff_eq] at hp ⊢
        exact ⟨hp.1, ih as (fun hm => hni (List.mem_cons_of_mem a hm)) hp.2⟩

theorem replaceIncome_eq_self : ∀ l : Str,
    hasInfix l ['i','n','_','c','o','m','e'] = false → replaceIncome l = l := by
  intro l
  induction l with
  | nil => intro _; rfl
  | cons c t ih =>
    intro h
    rw [hasInfix_cons] at h
    simp only [Bool.or_eq_false_iff] at h
    rw [replaceIncome_eq, if_neg (by rw [h.1]; exact Bool.false_ne_true)]
    exact congrArg (c :: ·) (ih h.2)

theorem replaceIncome_noInfix_aux : ∀ (n : Nat) (l : Str), l.length ≤ n →
    hasInfix (replaceIncome l) ['i','n','_','c','o','m','e'] = false := by
  intro n
  induction n with
  | zero =>
    intro l hl
    obtain rfl := List.length_eq_zero.mp (Nat.le_zero.mp hl)
    rfl
  | succ n ih =>
    intro l hl
    cases l with
    | nil => rfl
    | cons c t =>
      rw [replaceIncome_eq]
      by_cases hc : isPfx ['i','n','_','c','o','m','e'] (c :: t) = true
      · rw [if_pos hc]
        have hw : hasInfix (replaceIncome ((c :: t).drop 7)) ['i','n','_','c','o','m','e'] = false := by
          apply ih
          simp only [List.length_drop, List.length_cons]
          simp only [List.length_cons] at hl
          omega
        rw [hasInfix_cons, hasInfix_cons, hasInfix_cons, hasInfix_cons, hasInfix_cons,
            hasInfix_cons,
            isPfx_false_3 'i' 'n' '_' 'i' 'n' 'c' _ _ (by decide),
            isPfx_false_1 'i' 'n' _ _ (by decide),
            isPfx_false_1 'i' 'c' _ _ (by decide),
            isPfx_false_1 'i' 'o' _ _ (by decide),
            isPfx_false_1 'i' 'm' _ _ (by decide),
            isPfx_false_1 'i' 'e' _ _ (by decide),
            hw]
        rfl
      · rw [if_neg hc]
        show hasInfix (c :: replaceIncome t) ['i','n','_','c','o','m','e'] = false
        have ht : hasInfix (replaceIncome t) ['i','n','_','c','o','m','e'] = false := by
          apply ih
          simp only [List.length_cons] at hl
          omega
        rw [hasInfix_cons, ht, Bool.or_false]
        cases hfp : isPfx ['i','n','_','c','o','m','e'] (c :: replaceIncome t) with
        | false => rfl
        | true =>
          exfalso
          simp only [isPfx, Bool.and_eq_true, beq_iff_eq] at hfp
          have hqt := isPfx_replaceIncome t ['n','_','c','o','m','e'] (by decide) hfp.2
          refine absurd ?_ hc
          simp only [isPfx, Bool.and_eq_true, beq_iff_eq]
          exact ⟨hfp.1, hqt⟩

theorem replaceIncome_noInfix (l : Str) :
    hasInfix (replaceIncome l) ['i','n','_','c','o','m','e'] = false :=
  replaceIncome_noInfix_aux l.length l (Nat.le_refl _)

theorem lowDigPairs_cons_of (c : Char) (u : Str) (h1 : (isLowerA c && headDigit u) = false)
    (h2 : lowDigPairs u = true) : lowDigPairs (c :: u) = true := by
  cases u with
  | nil => rfl
  | cons d u' =>
    simp only [headDigit] at h1
    simp only [lowDigPairs, Bool.and_eq_true, Bool.not_eq_true']
    exact ⟨h1, h2⟩

theorem lowDigPairs_cons_to (c : Char) (u : Str) (h : lowDigPairs (c :: u) = true) :
    (isLowerA c && headDigit u) = false := by
  cases u with
  | nil => simp [headDigit]
  | cons d u' =>
    simp only [lowDigPairs, Bool.and_eq_true, Bool.not_eq_true'] at h
    simp only [headDigit]
    exact h.1

theorem noUpper_replaceIncome_aux : ∀ (n : Nat) (l : Str), l.length ≤ n →
    noUpper l = true → noUpper (replaceIncome l) = true := by
  intro n
  induction n with
  | zero =>
    intro l hl _
    obtain rfl := List.length_eq_zero.mp (Nat.le_zero.mp hl)
    rfl
  | succ n ih =>
    intro l hl h
    cases l with
    | nil => rfl
    | cons c t =>
      rw [replaceIncome_eq]
      by_cases hc : isPfx ['i','n','_','c','o','m','e'] (c :: t) = true
      · rw [if_pos hc]
        have hw : noUpper (replaceIncome ((c :: t).drop 7)) = true := by
          apply ih
          · simp only [List.length_drop, List.length_cons]
            simp only [List.length_cons] at hl
            omega
          · exact noUpper_drop _ 7 h
        simp only [noUpper_cons, Bool.and_eq_true, Bool.not_eq_true']
        exact ⟨by decide, by decide, by decide, by decide, by decide, by decide, hw⟩
      · rw [if_neg hc]
        show noUpper (c :: replaceIncome t) = true
        rw [noUpper_cons, Bool.and_eq_true] at h ⊢
        refine ⟨h.1, ih t ?_ h.2⟩
        simp only [List.length_cons] at hl
        omega

theorem noUpper_replaceIncome (l : Str) (h : noUpper l = true) :
    noUpper (replaceIncome l) = true :=
  noUpper_replaceIncome_aux l.length l (Nat.le_refl _) h

theorem lowDig_replaceIncome_aux : ∀ (n : Nat) (l : Str), l.length ≤ n →
    lowDigPairs l = true →
    lowDigPairs (replaceIncome l) = true ∧ headDigit (replaceIncome l) = headDigit l := by
  intro n
  induction n with
  | zero =>
    intro l hl _
    obtain rfl := List.length_eq_zero.mp (Nat.le_zero.mp hl)
    exact ⟨rfl, rfl⟩
  | succ n ih =>
    intro l hl h
    cases l with
    | nil => exact ⟨rfl, rfl⟩
    | cons c t =>
      rw [replaceIncome_eq]
      by_cases hc : isPfx ['i','n','_','c','o','m','e'] (c :: t) = true
      · rw [if_pos hc]
        rcases t with _ | ⟨c2, _ | ⟨c3, _ | ⟨c4, _ | ⟨c5, _ | ⟨c6, _ | ⟨c7, t'⟩⟩⟩⟩⟩⟩ <;>
          simp only [isPfx, Bool.and_eq_true, beq_iff_eq, Bool.false_eq_true, and_false] at hc
        obtain ⟨h1, h2, h3, h4, h5, h6, h7, -⟩ := hc
        subst h1; subst h2; subst h3; subst h4; subst h5; subst h6; subst h7
        have h6p : lowDigPairs ('e' :: t') = true :=
          lowDigPairs_tail _ _ (lowDigPairs_tail _ _ (lowDigPairs_tail _ _
            (lowDigPairs_tail _ _ (lowDigPairs_tail _ _ (lowDigPairs_tail _ _ h)))))
        have hw := ih t' (by simp only [List.length_cons] at hl; omega)
          (lowDigPairs_tail _ _ h6p)
        constructor
        · show lowDigPairs ('i' :: 'n' :: 'c' :: 'o' :: 'm' :: 'e' :: replaceIncome t') = true
          refine lowDigPairs_cons_of _ _ (by simp only [headDigit]; decide) ?_
          refine lowDigPairs_cons_of _ _ (by simp only [headDigit]; decide) ?_
          refine lowDigPairs_cons_of _ _ (by simp only [headDigit]; decide) ?_
          refine lowDigPairs_cons_of _ _ (by simp only [headDigit]; decide) ?_
          refine lowDigPairs_cons_of _ _ (by simp only [headDigit]; decide) ?_
          refine lowDigPairs_cons_of _ _ ?_ hw.1
          rw [hw.2]
          exact lowDigPairs_cons_to 'e' t' h6p
        · rfl
      · rw [if_neg hc]
        refine ⟨?_, rfl⟩
        show lowDigPairs (c :: replaceIncome t) = true
        have hw := ih t (by simp only [List.length_cons] at hl; omega)
          (lowDigPairs_tail _ _ h)
        refine lowDigPairs_cons_of _ _ ?_ hw.1
        rw [hw.2]
        exact lowDigPairs_cons_to c t h

theorem lowDig_replaceIncome (l : Str) (h : lowDigPairs l = true) :
    lowDigPairs (replaceIncome l) = true :=
  (lowDig_replaceIncome_aux l.length l (Nat.le_refl _) h).1

theorem insSepGo_eq_self : ∀ (l : Str) (p : Char), noUpper (p :: l) = true →
    lowDigPairs (p :: l) = true → insSepGo (some p) l = l := by
  intro l
  induction l with
  | nil => intro p _ _; rfl
  | cons c t ih =>
    intro p hU hL
    rw [noUpper_cons, Bool.and_eq_true, Bool.not_eq_true'] at hU
    have hUc : isUpperA c = false := by
      have := hU.2
      rw [noUpper_cons, Bool.and_eq_true, Bool.not_eq_true'] at this
      exact this.1
    have hpair : (isLowerA p && isDigitA c) = false := by
      have := lowDigPairs_cons_to p (c :: t) hL
      simpa only [headDigit] using this
    have hsc : sepCond p c = false := by
      rw [sepCond, hUc, hpair, Bool.and_false]
      rfl
    show (if sepCond p c then '_' :: c :: insSepGo (some c) t
          else c :: insSepGo (some c) t) = c :: t
    rw [if_neg (by rw [hsc]; exact Bool.false_ne_true)]
    exact congrArg (c :: ·) (ih c hU.2 (lowDigPairs_tail p _ hL))

theorem insSep_eq_self (l : Str) (hU : noUpper l = true) (hL : lowDigPairs l = true) :
    insSep l = l := by
  cases l with
  | nil => rfl
  | cons c t =>
    show c :: insSepGo (some c) t = c :: t
    exact congrArg (c :: ·) (insSepGo_eq_self t c hU hL)

theorem lowDig_lower_insSepGo : ∀ (l : Str) (p : Char), noUpDig (p :: l) = true →
    lowDigPairs (toLowerA p :: lowerStr (insSepGo (some p) l)) = true := by
  intro l
  induction l with
  | nil => intro p _; rfl
  | cons c t ih =>
    intro p h
    have h1 : (isUpperA p && isDigitA c) = false := by
      cases hni : noUpDig (p :: c :: t)
      · rw [hni] at h; exact absurd h Bool.false_ne_true
      · simp only [noUpDig, Bool.and_eq_true, Bool.not_eq_true'] at hni
        exact hni.1
    have h2 : noUpDig (c :: t) = true := noUpDig_tail p _ h
    show lowDigPairs (toLowerA p :: lowerStr
        (if sepCond p c = true then '_' :: c :: insSepGo (some c) t
         else c :: insSepGo (some c) t)) = true
    by_cases hsc : sepCond p c = true
    · rw [if_pos hsc]
      simp only [lowerStr, List.map_cons]
      refine lowDigPairs_cons_of _ _ ?_ ?_
      · simp only [headDigit, (by decide : isDigitA (toLowerA '_') = false), Bool.and_false]
      · refine lowDigPairs_cons_of _ _ ?_ (ih c h2)
        simp only [headDigit, (by decide : isLowerA (toLowerA '_') = false), Bool.false_and]
    · have hscf : sepCond p c = false := by
        cases hb : sepCond p c
        · rfl
        · exact absurd hb hsc
      rw [if_neg (by rw [hscf]; exact Bool.false_ne_true)]
      have hsc' := hscf
      rw [sepCond] at hsc'
      simp only [Bool.or_eq_false_iff] at hsc'
      simp only [lowerStr, List.map_cons]
      refine lowDigPairs_cons_of _ _ ?_ (ih c h2)
      simp only [headDigit]
      rw [isDigitA_toLowerA]
      by_cases hd : isDigitA c = true
      · have hlp : isLowerA p = false := by
          have hx := hsc'.1.2
          rw [hd, Bool.and_eq_false_iff] at hx
          rcases hx with h' | h'
          · exact h'
          · exact Bool.noConfusion h'
        have hup : isUpperA p = false := by
          rw [hd, Bool.and_eq_false_iff] at h1
          rcases h1 with h' | h'
          · exact h'
          · exact Bool.noConfusion h'
        rw [toLowerA_eq_self p hup, hlp, Bool.false_and]
      · have hd' : isDigitA c = false := by
          cases hb : isDigitA c
          · rfl
          · exact absurd hb hd
        rw [hd', Bool.and_false]

theorem lowDig_lower_insSep (x : Str) (h : noUpDig x = true) :
    lowDigPairs (lowerStr (insSep x)) = true := by
  cases x with
  | nil => rfl
  | cons c t =>
    show lowDigPairs (toLowerA c :: lowerStr (insSepGo (some c) t)) = true
    exact lowDig_lower_insSepGo t c h


/-- C6 (amended): the Key Normalizer is idempotent on every input in which
no ASCII digit immediately follows an ASCII uppercase letter. After one
pass the output has no uppercase letters, no digit directly after a
lowercase letter, and no `in_come` substring, so a second pass changes
nothing. -/
theorem C6_idempotent_amended (x : Str) (h : noUpDig x = true) :
    keyNormalize (keyNormalize x) = keyNormalize x := by
  have hU0 : noUpper (lowerStr (insSep x)) = true := noUpper_lowerStr _
  have hL0 : lowDigPairs (lowerStr (insSep x)) = true := lowDig_lower_insSep x h
  have hU : noUpper (keyNormalize x) = true := noUpper_replaceIncome _ hU0
  have hL : lowDigPairs (keyNormalize x) = true := lowDig_replaceIncome _ hL0
  have hI : hasInfix (keyNormalize x) ['i','n','_','c','o','m','e'] = false :=
    replaceIncome_noInfix _
  calc keyNormalize (keyNormalize x)
      = replaceIncome (lowerStr (insSep (keyNormalize x))) := rfl
    _ = replaceIncome (lowerStr (keyNormalize x)) := by rw [insSep_eq_self _ hU hL]
    _ = replaceIncome (keyNormalize x) := by rw [lowerStr_eq_self _ hU]
    _ = keyNormalize x := replaceIncome_eq_self _ hI

/-- C6 (counterexample): the Key Normalizer is not idempotent in general.
Normalizing `A1` gives `a1` (the uppercase letter is lowercased, and no
separator is inserted between an uppercase letter and a digit), but
normalizing `a1` gives `a_1` (the lowercase-before-digit rule now fires). -/
theorem C6_counterexample :
    keyNormalize (str "A1") = str "a1" ∧
    keyNormalize (keyNormalize (str "A1")) = str "a_1" ∧
    keyNormalize (keyNormalize (str "A1")) ≠ keyNormalize (str "A1") :=
  ⟨rfl, rfl, by decide⟩

/-- C6 witness: the amended idempotence theorem applied to the concrete API
key `acOutputType`. -/
theorem C6_idempotent_amended_witness :
    noUpDig (str "acOutputType") = true ∧
    keyNormalize (keyNormalize (str "acOutputType")) =
      keyNormalize (str "acOutputType") :=
  ⟨by decide, C6_idempotent_amended (str "acOutputType") (by decide)⟩
